import Mathlib

/-!
# Shallow embedding of the payment-reconciliation core

This file embeds the payment-status reconciliation engine of a Go
order/payment backend (`internal/service/payment_service.go`,
`internal/app/payment_handler.go`, `internal/repository/payment_repo.go`,
`internal/model`) and proves properties of it.

Modelling conventions:
* Go `string` is `String`, Go `int` is `Int`, Go `*string` / `*time.Time`
  are `Option String` / `Option Int` (time instants are integers, e.g.
  Unix seconds; only their order matters to the code).
* The database is a `Store`: a list of payments and a list of orders.
  GORM `Save` (update keyed by primary key) is replace-by-id in the list;
  `First(... Where(...))` is `List.find?`.  The DB-managed `updated_at`
  column is outside the model.
* Fallible repository calls are driven by a `DBEnv` of failure flags, so
  that error-handling claims can quantify over injected failures.
* JSON (de)serialisation performed by the Go standard library is
  abstracted: inbound payloads arrive already shaped as `Notif` records
  (exactly the fields the code reads), the serialised raw payload stored
  on the payment is produced by an arbitrary function `serialize :
  Notif -> String`, and the re-parse that extracts `fraud_status` from a
  stored raw payload is an arbitrary function `parseFraud : String ->
  Option String`.  Likewise multi-format timestamp parsing is an
  arbitrary `parseExpiry : String -> Option Int`.  All theorems hold for
  every choice of these functions.
* The outbound gateway is an oracle: charge creation receives a
  `ChargeOutcome`, a status query receives a `StatusOutcome`.  Functions
  additionally report whether they performed an outbound gateway call.
-/

/-- Canonical payment status (`model.PaymentStatus`). -/
inductive PaymentStatus where
  | Pending
  | Success
  | Failed
  | Cancelled
  | Expired
  deriving DecidableEq, Repr

/-- Payment method (`model.PaymentMethod`). -/
inductive PaymentMethod where
  | bank_transfer
  | gopay
  | credit_card
  | qris
  | alfamart
  deriving DecidableEq, Repr

/-- `model.Payment` (DB-managed `updated_at` omitted; `created_at` kept as an
integer instant because the poller's 48-hour window reads it). -/
structure Payment where
  id : String
  orderID : String
  orderUUID : String
  midtransTransactionID : Option String
  amount : Int
  totalAmount : Int
  status : PaymentStatus
  paymentMethod : PaymentMethod
  paymentType : String
  fraudStatus : Option String
  vaNumber : Option String
  bankType : Option String
  qrCodeURL : Option String
  expiryTime : Option Int
  midtransResponse : Option String
  createdAt : Int
  deriving DecidableEq, Repr

/-- `model.User` (the fields `CreatePayment` reads). -/
structure User where
  fullName : String
  email : String
  phone : Option String
  deriving DecidableEq, Repr

/-- `model.OrderItem` (the fields `CreatePayment` reads). -/
structure OrderItem where
  productID : String
  productName : String
  quantity : Int
  price : Int
  deriving DecidableEq, Repr

/-- `model.Order` (the fields the payment service reads or writes). -/
structure Order where
  id : String
  orderNumber : String
  shippingCost : Int
  insuranceCost : Int
  warrantyCost : Int
  serviceFee : Int
  totalDiscount : Int
  bonus : Int
  totalAmount : Int
  status : String
  user : User
  orderItems : List OrderItem
  deriving DecidableEq, Repr

/-- The shared mutable database state: the `payments` and `orders` tables. -/
structure Store where
  payments : List Payment
  orders : List Order
  deriving DecidableEq, Repr

/-- Injected repository failures, so error-handling behaviour can be
quantified over every failure pattern. -/
structure DBEnv where
  paymentCreateFails : Bool
  paymentUpdateFails : Bool
  orderFindFails : Bool
  orderUpdateFails : Bool
  pendingFetchFails : Bool
  deriving DecidableEq, Repr

/-- `paymentRepository.FindByOrderNumber`: first payment whose `order_id`
column (the business order number) matches. -/
def FindByOrderNumber (payments : List Payment) (orderNumber : String) : Option Payment :=
  payments.find? (fun p => p.orderID = orderNumber)

/-- `paymentRepository.FindByOrderID`: first payment whose `order_uuid`
column matches. -/
def FindByOrderUUID (payments : List Payment) (orderUUID : String) : Option Payment :=
  payments.find? (fun p => p.orderUUID = orderUUID)

/-- Lookup of a payment row by primary key (`paymentRepository.FindByID`). -/
def FindPaymentByID (payments : List Payment) (id : String) : Option Payment :=
  payments.find? (fun p => p.id = id)

/-- `paymentRepository.Update` (GORM `Save`): replace the row with the same
primary key. -/
def UpdatePaymentList (payments : List Payment) (p : Payment) : List Payment :=
  payments.map (fun q => if q.id = p.id then p else q)

/-- `orderRepository.FindByID`. -/
def FindOrderByID (orders : List Order) (id : String) : Option Order :=
  orders.find? (fun o => o.id = id)

/-- `orderRepository.Update` (GORM `Save`). -/
def UpdateOrderList (orders : List Order) (o : Order) : List Order :=
  orders.map (fun q => if q.id = o.id then o else q)

/-- The Go idiom `ptr != nil && *ptr != ""` on an optional string. -/
def optNonEmpty : Option String → Bool
  | some s => s ≠ ""
  | none => false

/-- `mapMidtransStatusToPaymentStatus`: gateway status vocabulary to
canonical status; unrecognised statuses default to `Pending`. -/
def mapMidtransStatusToPaymentStatus (status : String) : PaymentStatus :=
  if status = "pending" then .Pending
  else if status = "settlement" ∨ status = "capture" then .Success
  else if status = "deny" then .Failed
  else if status = "cancel" then .Cancelled
  else if status = "expire" then .Expired
  else .Pending

/-- The preserve-if-empty statement of `UpdatePaymentStatus` (lines
868-876), for one method-specific field: `if incoming == "" && stored !=
nil && *stored != "" { incoming = *stored }`. -/
def preserveIfEmpty (incoming : String) (stored : Option String) : String :=
  if incoming = "" ∧ optNonEmpty stored then stored.getD "" else incoming

/-- Line 879: `payment.Status = paymentStatus`. -/
def setStatusField (p : Payment) (status : String) : Payment :=
  { p with status := mapMidtransStatusToPaymentStatus status }

/-- Lines 880-882: set the gateway transaction id when non-empty. -/
def setTransactionIDField (p : Payment) (transactionID : String) : Payment :=
  if transactionID ≠ "" then { p with midtransTransactionID := some transactionID } else p

/-- Lines 883-885: set the VA number when non-empty. -/
def setVANumberField (p : Payment) (vaNumber : String) : Payment :=
  if vaNumber ≠ "" then { p with vaNumber := some vaNumber } else p

/-- Lines 886-888: set the bank code when non-empty. -/
def setBankTypeField (p : Payment) (bankType : String) : Payment :=
  if bankType ≠ "" then { p with bankType := some bankType } else p

/-- Lines 889-891: set the QR code URL when non-empty. -/
def setQRCodeURLField (p : Payment) (qrCodeURL : String) : Payment :=
  if qrCodeURL ≠ "" then { p with qrCodeURL := some qrCodeURL } else p

/-- Lines 892-894: set the expiry when present. -/
def setExpiryField (p : Payment) (expiryTime : Option Int) : Payment :=
  match expiryTime with
  | some e => { p with expiryTime := some e }
  | none => p

/-- Lines 895-904: store the raw payload when non-empty and extract
`fraud_status` from it (the JSON re-parse abstracted as `parseFraud`). -/
def setResponseField (parseFraud : String → Option String) (p : Payment)
    (midtransResponse : String) : Payment :=
  if midtransResponse ≠ "" then
    let p := { p with midtransResponse := some midtransResponse }
    match parseFraud midtransResponse with
    | some fs => if fs ≠ "" then { p with fraudStatus := some fs } else p
    | none => p
  else p

/-- The in-memory field mutation block of `UpdatePaymentStatus`
(payment_service.go lines 867-904), one helper per Go statement in source
order: preserve-if-empty merge of the method-specific fields, then the
unconditional status overwrite and the conditional field overwrites, then
raw-payload storage with `fraud_status` extraction. -/
def mergePayment (parseFraud : String → Option String) (payment : Payment)
    (status transactionID vaNumber bankType qrCodeURL : String)
    (expiryTime : Option Int) (midtransResponse : String) : Payment :=
  let qrCodeURL := preserveIfEmpty qrCodeURL payment.qrCodeURL
  let vaNumber := preserveIfEmpty vaNumber payment.vaNumber
  let bankType := preserveIfEmpty bankType payment.bankType
  let p := setStatusField payment status
  let p := setTransactionIDField p transactionID
  let p := setVANumberField p vaNumber
  let p := setBankTypeField p bankType
  let p := setQRCodeURLField p qrCodeURL
  let p := setExpiryField p expiryTime
  setResponseField parseFraud p midtransResponse

/-- The order side effect of `UpdatePaymentStatus` (lines 914-928): on
`Success`, load the order and move it `pending → processing`; every failure
is swallowed (modelled by returning the orders table unchanged). -/
def applyOrderEffect (env : DBEnv) (orders : List Order)
    (paymentStatus : PaymentStatus) (orderUUID : String) : List Order :=
  if paymentStatus = .Success then
    if env.orderFindFails then orders
    else
      match FindOrderByID orders orderUUID with
      | none => orders
      | some o =>
        if o.status = "pending" then
          if env.orderUpdateFails then orders
          else UpdateOrderList orders { o with status := "processing" }
        else orders
  else orders

/-- `paymentService.UpdatePaymentStatus`: the Reconciler.  Loads the payment
by order number (hard `NotFound` error), merges the observation into it,
persists it (propagating a persistence failure), then best-effort applies
the order projection. -/
def UpdatePaymentStatus (parseFraud : String → Option String) (env : DBEnv)
    (st : Store) (orderNumber status transactionID vaNumber bankType qrCodeURL : String)
    (expiryTime : Option Int) (midtransResponse : String) : Except String Store :=
  let paymentStatus := mapMidtransStatusToPaymentStatus status
  match FindByOrderNumber st.payments orderNumber with
  | none => .error ("payment not found for order number: " ++ orderNumber)
  | some payment =>
    let merged := mergePayment parseFraud payment status transactionID vaNumber bankType qrCodeURL expiryTime midtransResponse
    if env.paymentUpdateFails then .error "failed to update payment"
    else
      .ok { payments := UpdatePaymentList st.payments merged
            orders := applyOrderEffect env st.orders paymentStatus payment.orderUUID }

/-- One element of a `va_numbers` array. -/
structure VAEntry where
  bank : String
  va_number : String
  deriving DecidableEq, Repr

/-- One element of an `actions` array. -/
structure ActionEntry where
  name : String
  method : String
  url : String
  deriving DecidableEq, Repr

/-- A gateway JSON object (webhook notification or status-query response),
shaped as exactly the fields the code reads out of the string-keyed map.
`none` / `[]` stand for an absent key (or a key of the wrong JSON type,
which the Go type assertions treat identically). -/
structure Notif where
  order_id : Option String
  transaction_id : Option String
  transaction_status : Option String
  va_numbers : List VAEntry
  qr_code_url : Option String
  actions : List ActionEntry
  expiry_time : Option String
  deriving DecidableEq, Repr

/-- `strings.Contains` on lists of characters. -/
def containsSub : List Char → List Char → Bool
  | [], needle => needle.isEmpty
  | hay@(_ :: t), needle => needle.isPrefixOf hay || containsSub t needle

/-- `strings.Contains(strings.ToLower(url), "qr")`. -/
def urlLooksLikeQR (url : String) : Bool :=
  containsSub url.toLower.toList "qr".toList

/-- Whether an action name is one of the known QR-code action names. -/
def isQRActionName (name : String) : Bool :=
  name = "generate-qr-code" ∨ name = "generate-qr-code-v2" ∨ name = "qr-code"

/-- QR extraction from an `actions` array as done in `HandleMidtransCallback`
and `CheckPaymentStatusFromMidtrans`: first action with a known QR name and
a non-empty URL; falling back to the first `GET` action with a non-empty
URL containing "qr". -/
def extractQRFromActions (actions : List ActionEntry) : String :=
  let byName := ((actions.find? (fun a => isQRActionName a.name ∧ a.url ≠ "")).map (fun a => a.url)).getD ""
  if byName = "" then
    ((actions.find? (fun a => a.method = "GET" ∧ a.url ≠ "" ∧ urlLooksLikeQR a.url)).map (fun a => a.url)).getD ""
  else byName

/-- First `va_numbers` entry, as `(vaNumber, bankType)`; `("", "")` when the
array is absent or empty. -/
def extractVA : List VAEntry → String × String
  | [] => ("", "")
  | v :: _ => (v.va_number, v.bank)

/-- `expiry_time` handling shared by the ingress paths: present and
non-empty strings are run through the multi-format timestamp parse
(abstracted as `parseExpiry`); absence or parse failure yields `none`. -/
def parseExpiryField (parseExpiry : String → Option Int) : Option String → Option Int
  | some e => if e ≠ "" then parseExpiry e else none
  | none => none

/-- `paymentService.HandleMidtransCallback`: validates that `order_id` and
`transaction_id` are present, extracts the optional fields, and invokes the
Reconciler synchronously, propagating its error. -/
def HandleMidtransCallback (parseFraud : String → Option String)
    (parseExpiry : String → Option Int) (serialize : Notif → String)
    (env : DBEnv) (st : Store) (notification : Notif) : Except String Store :=
  match notification.order_id with
  | none => .error "invalid notification: missing order_id"
  | some orderID =>
    match notification.transaction_id with
    | none => .error "invalid notification: missing transaction_id"
    | some transactionID =>
      let transactionStatus := notification.transaction_status.getD ""
      let va := extractVA notification.va_numbers
      let qrCodeURL := match notification.qr_code_url with
        | some q => q
        | none => extractQRFromActions notification.actions
      let expiryTime := parseExpiryField parseExpiry notification.expiry_time
      UpdatePaymentStatus parseFraud env st orderID transactionStatus transactionID va.1 va.2 qrCodeURL expiryTime (serialize notification)

/-- An HTTP response of the Gin handler layer (status code and message). -/
structure HTTPResponse where
  code : Nat
  message : String
  deriving DecidableEq, Repr

/-- `PaymentHandler.MidtransCallback`: a body that fails JSON binding
(`none`) is a 400; otherwise `HandleMidtransCallback` runs synchronously
and its error becomes a 400 response, success a 200 acknowledgment. -/
def MidtransCallback (parseFraud : String → Option String)
    (parseExpiry : String → Option Int) (serialize : Notif → String)
    (env : DBEnv) (st : Store) (body : Option Notif) : HTTPResponse × Store :=
  match body with
  | none => (⟨400, "Invalid notification format"⟩, st)
  | some notification =>
    match HandleMidtransCallback parseFraud parseExpiry serialize env st notification with
    | .error e => (⟨400, e⟩, st)
    | .ok st' => (⟨200, "Callback processed successfully"⟩, st')

/-- Outcome of the outbound status-query HTTP call
(`GET /v2/{transactionID}/status`): transport failure, body-read failure,
or a response with a status code and a body whose JSON parse either fails
(`none`) or yields a `Notif`-shaped map. -/
inductive StatusOutcome where
  | netError
  | readError
  | httpResp (code : Nat) (parsed : Option Notif)
  deriving DecidableEq, Repr

/-- `paymentService.CheckPaymentStatusFromMidtrans`: the gateway-driven
re-check path.  Returns the resulting store (or error) together with a flag
recording whether an outbound gateway call was made. -/
def CheckPaymentStatusFromMidtrans (gw : StatusOutcome)
    (parseFraud : String → Option String) (parseExpiry : String → Option Int)
    (serialize : Notif → String) (env : DBEnv) (st : Store)
    (orderNumber : String) : Except String Store × Bool :=
  match FindByOrderNumber st.payments orderNumber with
  | none => (.error ("payment not found for order number " ++ orderNumber), false)
  | some payment =>
    if payment.status = .Success then (.ok st, false)
    else if ¬ optNonEmpty payment.midtransTransactionID then (.error "no transaction ID for payment", false)
    else
      match gw with
      | .netError => (.error "failed to call Midtrans API", true)
      | .readError => (.error "failed to read response", true)
      | .httpResp code parsed =>
        if code ≠ 200 then (.error "Midtrans API error", true)
        else
          match parsed with
          | none => (.error "failed to parse response", true)
          | some resp =>
            match resp.transaction_status with
            | none => (.error "no transaction_status in response", true)
            | some transactionStatus =>
              if transactionStatus = "" then (.error "no transaction_status in response", true)
              else
                let transactionID := resp.transaction_id.getD ""
                let va := extractVA resp.va_numbers
                let qrFound := extractQRFromActions resp.actions
                let qrCodeURL := if qrFound = "" ∧ optNonEmpty payment.qrCodeURL then payment.qrCodeURL.getD "" else qrFound
                let expiryTime := parseExpiryField parseExpiry resp.expiry_time
                (UpdatePaymentStatus parseFraud env st orderNumber transactionStatus transactionID va.1 va.2 qrCodeURL expiryTime (serialize resp), true)

/-- `config.Config` (the fields the payment service reads). -/
structure Config where
  midtransServerKey : String
  serverURL : String
  serverHost : String
  serverPort : String
  deriving DecidableEq, Repr

/-- One line item of the outbound charge request (`MidtransItemDetail`). -/
structure MidtransItemDetail where
  id : String
  price : Int
  quantity : Int
  name : String
  category : String
  deriving DecidableEq, Repr

/-- `MidtransTransactionDetails`. -/
structure MidtransTransactionDetails where
  orderID : String
  grossAmount : Int
  deriving DecidableEq, Repr

/-- `MidtransCustomerDetails`. -/
structure MidtransCustomerDetails where
  firstName : String
  email : String
  phone : String
  deriving DecidableEq, Repr

/-- `MidtransBankTransfer`. -/
structure MidtransBankTransfer where
  bank : String
  deriving DecidableEq, Repr

/-- `MidtransGopay`. -/
structure MidtransGopay where
  enableCallback : Bool
  callbackURL : String
  deriving DecidableEq, Repr

/-- `MidtransCreditCard`. -/
structure MidtransCreditCard where
  secure : Bool
  authentication : Bool
  deriving DecidableEq, Repr

/-- The outbound charge request (`MidtransChargeRequest`). -/
structure MidtransChargeRequest where
  paymentType : String
  transactionDetails : MidtransTransactionDetails
  customerDetails : MidtransCustomerDetails
  itemDetails : List MidtransItemDetail
  bankTransfer : Option MidtransBankTransfer
  gopay : Option MidtransGopay
  creditCard : Option MidtransCreditCard
  deriving DecidableEq, Repr

/-- `string(paymentMethod)`. -/
def methodString : PaymentMethod → String
  | .bank_transfer => "bank_transfer"
  | .gopay => "gopay"
  | .credit_card => "credit_card"
  | .qris => "qris"
  | .alfamart => "alfamart"

/-- The line-item array built by `CreatePayment` (lines 286-358): product
lines, then shipping / insurance / warranty / service-fee lines when
positive, then discount and bonus as negative lines when positive. -/
def buildItemDetails (order : Order) : List MidtransItemDetail :=
  let items := order.orderItems.map (fun it =>
    { id := it.productID, price := it.price, quantity := it.quantity,
      name := it.productName, category := "product" })
  let items := if order.shippingCost > 0 then
    items ++ [{ id := "shipping", price := order.shippingCost, quantity := 1,
                name := "Shipping Cost", category := "shipping" }] else items
  let items := if order.insuranceCost > 0 then
    items ++ [{ id := "insurance", price := order.insuranceCost, quantity := 1,
                name := "Shipping Insurance", category := "insurance" }] else items
  let items := if order.warrantyCost > 0 then
    items ++ [{ id := "warranty", price := order.warrantyCost, quantity := 1,
                name := "Warranty Protection", category := "warranty" }] else items
  let items := if order.serviceFee > 0 then
    items ++ [{ id := "service_fee", price := order.serviceFee, quantity := 1,
                name := "Service Fee", category := "fee" }] else items
  let items := if order.totalDiscount > 0 then
    items ++ [{ id := "discount", price := -order.totalDiscount, quantity := 1,
                name := "Discount", category := "discount" }] else items
  let items := if order.bonus > 0 then
    items ++ [{ id := "bonus", price := -order.bonus, quantity := 1,
                name := "Bonus Cashback", category := "bonus" }] else items
  items

/-- `grossAmount += item.Price * item.Quantity` over the item array
(lines 362-365). -/
def computeGrossAmount (items : List MidtransItemDetail) : Int :=
  items.foldl (fun acc it => acc + it.price * it.quantity) 0

/-- Backend callback URL construction (lines 385-394). -/
def callbackURLOf (cfg : Config) : String :=
  let backendURL :=
    if cfg.serverURL = "" then
      if cfg.serverHost = "0.0.0.0" then "http://localhost:" ++ cfg.serverPort
      else "http://" ++ cfg.serverHost ++ ":" ++ cfg.serverPort
    else cfg.serverURL
  backendURL ++ "/api/v1/payments/midtrans/callback"

/-- The charge request assembled by `CreatePayment` (lines 372-430): gross
amount is the computed item sum (authoritative even on a mismatch with the
order's stored total, which is only logged), then the per-method block with
the QRIS and Alfamart payment-type overrides. -/
def buildChargeRequest (cfg : Config) (order : Order) (method : PaymentMethod)
    (bankType : Option String) : MidtransChargeRequest :=
  let items := buildItemDetails order
  let grossAmount := computeGrossAmount items
  let base : MidtransChargeRequest := {
    paymentType := methodString method
    transactionDetails := { orderID := order.orderNumber, grossAmount := grossAmount }
    customerDetails := { firstName := order.user.fullName, email := order.user.email,
                         phone := order.user.phone.getD "" }
    itemDetails := items
    bankTransfer := none, gopay := none, creditCard := none }
  let callbackURL := callbackURLOf cfg
  match method with
  | .bank_transfer =>
    let bank := match bankType with
      | some b => if b ≠ "" then b.toLower else "bca"
      | none => "bca"
    { base with bankTransfer := some { bank := bank } }
  | .gopay =>
    { base with gopay := some { enableCallback := true, callbackURL := callbackURL } }
  | .qris =>
    { base with paymentType := "qris",
                gopay := some { enableCallback := true, callbackURL := callbackURL } }
  | .credit_card =>
    { base with creditCard := some { secure := true, authentication := true } }
  | .alfamart =>
    { base with paymentType := "cstore" }

/-- The parsed body of a successful charge response
(`MidtransChargeResponse`, plain struct fields with `""` defaults). -/
structure ChargeResp where
  transaction_id : String
  transaction_status : String
  fraud_status : String
  va_numbers : List VAEntry
  actions : List ActionEntry
  expiry_time : String
  qr_code_url : String
  deriving DecidableEq, Repr

/-- Outcome of the outbound charge HTTP call: transport failure, body-read
failure, or a response with status code, raw body, and that body's JSON
parse (`none` when malformed). -/
inductive ChargeOutcome where
  | netError
  | readError
  | httpResp (code : Nat) (rawBody : String) (parsed : Option ChargeResp)
  deriving DecidableEq, Repr

/-- QR URL extraction in `CreatePayment` (lines 487-507): first action with
a known QR name (no URL guard in this copy of the loop), falling back to
the first `GET` action whose URL contains "qr", falling back to the
top-level `qr_code_url` field. -/
def extractQRCreate (resp : ChargeResp) : String :=
  let byName := ((resp.actions.find? (fun a => isQRActionName a.name)).map (fun a => a.url)).getD ""
  let q := if byName = "" then
    ((resp.actions.find? (fun a => a.method = "GET" ∧ a.url ≠ "" ∧ urlLooksLikeQR a.url)).map (fun a => a.url)).getD ""
  else byName
  if q = "" ∧ resp.qr_code_url ≠ "" then resp.qr_code_url else q

/-- The in-memory application of the `updateData` map in
`updatePaymentFields` (transaction id, status and raw response
unconditionally; fraud status and method-specific fields only when
non-empty; expiry when present). -/
def applyUpdateMap (payment : Payment) (transactionID : String) (status : PaymentStatus)
    (fraudStatus : String) (midtransResponse : String) (vaNumber bankType qrCodeURL : String)
    (expiryTime : Option Int) : Payment :=
  let p := { payment with midtransTransactionID := some transactionID, status := status }
  let p := if fraudStatus ≠ "" then { p with fraudStatus := some fraudStatus } else p
  let p := { p with midtransResponse := some midtransResponse }
  let p := if vaNumber ≠ "" then { p with vaNumber := some vaNumber } else p
  let p := if bankType ≠ "" then { p with bankType := some bankType } else p
  let p := if qrCodeURL ≠ "" then { p with qrCodeURL := some qrCodeURL } else p
  match expiryTime with
  | some e => { p with expiryTime := some e }
  | none => p

/-- `paymentService.updatePaymentFields`: reload the row by id, apply the
update map, persist. -/
def updatePaymentFields (env : DBEnv) (payments : List Payment) (paymentID : String)
    (transactionID : String) (status : PaymentStatus) (fraudStatus : String)
    (midtransResponse : String) (vaNumber bankType qrCodeURL : String)
    (expiryTime : Option Int) : Except String (List Payment) :=
  match FindPaymentByID payments paymentID with
  | none => .error "record not found"
  | some payment =>
    if env.paymentUpdateFails then .error "update failed"
    else .ok (UpdatePaymentList payments
      (applyUpdateMap payment transactionID status fraudStatus midtransResponse vaNumber bankType qrCodeURL expiryTime))

/-- The fresh `Pending` payment record built by `CreatePayment` (lines
252-260; the GORM-generated primary key is supplied as `newID`, the
`autoCreateTime` timestamp as `now`). -/
def newPaymentRecord (newID : String) (now : Int) (order : Order)
    (method : PaymentMethod) : Payment :=
  { id := newID, orderID := order.orderNumber, orderUUID := order.id,
    midtransTransactionID := none, amount := order.totalAmount,
    totalAmount := order.totalAmount, status := .Pending,
    paymentMethod := method, paymentType := "midtrans",
    fraudStatus := none, vaNumber := none, bankType := none,
    qrCodeURL := none, expiryTime := none, midtransResponse := none,
    createdAt := now }

/-- `paymentService.CreatePayment`: load the order, return any existing
payment for it, otherwise persist a fresh `Pending` record (its generated
primary key supplied as `newID`), and degrade to that record on every
gateway failure; on a parsed 2xx response, best-effort apply the extracted
gateway linkage and reload. -/
def CreatePayment (cfg : Config) (gw : MidtransChargeRequest → ChargeOutcome)
    (parseExpiry : String → Option Int) (env : DBEnv) (newID : String) (now : Int)
    (st : Store) (orderID : String) (method : PaymentMethod)
    (bankType : Option String) : Except String (Payment × Store) :=
  if env.orderFindFails then .error "order not found"
  else
    match FindOrderByID st.orders orderID with
    | none => .error "order not found"
    | some order =>
      match FindByOrderUUID st.payments orderID with
      | some existing => .ok (existing, st)
      | none =>
        let payment : Payment := newPaymentRecord newID now order method
        if env.paymentCreateFails then .error "failed to create payment"
        else
          let st := { st with payments := st.payments ++ [payment] }
          if cfg.midtransServerKey = "" then .ok (payment, st)
          else
            match gw (buildChargeRequest cfg order method bankType) with
            | .netError => .ok (payment, st)
            | .readError => .ok (payment, st)
            | .httpResp code rawBody parsed =>
              if code ≠ 200 ∧ code ≠ 201 then
                let payment := { payment with midtransResponse := some rawBody }
                let st := if env.paymentUpdateFails then st
                  else { st with payments := UpdatePaymentList st.payments payment }
                .ok (payment, st)
              else
                match parsed with
                | none => .ok (payment, st)
                | some resp =>
                  let va := extractVA resp.va_numbers
                  let qrCodeURL := extractQRCreate resp
                  let expiryTime := if resp.expiry_time ≠ "" then parseExpiry resp.expiry_time else none
                  let payments' := match updatePaymentFields env st.payments payment.id
                      resp.transaction_id (mapMidtransStatusToPaymentStatus resp.transaction_status)
                      resp.fraud_status rawBody va.1 va.2 qrCodeURL expiryTime with
                    | .ok ps => ps
                    | .error _ => st.payments
                  let st := { st with payments := payments' }
                  match FindPaymentByID st.payments payment.id with
                  | none => .ok (payment, st)
                  | some updated => .ok (updated, st)

/-- `paymentRepository.FindPendingPayments`: `Pending` payments created in
the last 48 hours (172800 seconds), then filtered in Go to those carrying a
gateway transaction id. -/
def FindPendingPayments (payments : List Payment) (now : Int) : List Payment :=
  (payments.filter (fun p => p.status = .Pending ∧ p.createdAt > now - 172800)).filter
    (fun p => optNonEmpty p.midtransTransactionID)

/-- `payment.ExpiryTime != nil && payment.ExpiryTime.Before(time.Now())`. -/
def expiredBefore (expiryTime : Option Int) (now : Int) : Bool :=
  match expiryTime with
  | some e => e < now
  | none => false

/-- One iteration of the sweep loop in `checkAllPendingPayments` (lines
166-200): skip payments without a transaction id; mark past-expiry payments
`Expired` locally with no gateway contact (the repo error is discarded);
otherwise run the gateway-driven re-check, whose failure is logged and left
for the next sweep.  The Bool records whether a gateway call was made for
this payment. -/
def sweepStep (gws : String → StatusOutcome) (parseFraud : String → Option String)
    (parseExpiry : String → Option Int) (serialize : Notif → String) (env : DBEnv)
    (now : Int) (st : Store) (p : Payment) : Store × Bool :=
  if ¬ optNonEmpty p.midtransTransactionID then (st, false)
  else if expiredBefore p.expiryTime now then
    ((if env.paymentUpdateFails then st
      else { st with payments := UpdatePaymentList st.payments { p with status := .Expired } }), false)
  else
    match CheckPaymentStatusFromMidtrans (gws p.orderID) parseFraud parseExpiry serialize env st p.orderID with
    | (.ok st', made) => (st', made)
    | (.error _, made) => (st, made)

/-- One loop iteration of the sweep, threading the store and appending the
per-payment gateway-call record to the log. -/
def sweepAccum (gws : String → StatusOutcome) (parseFraud : String → Option String)
    (parseExpiry : String → Option Int) (serialize : Notif → String) (env : DBEnv)
    (now : Int) (acc : Store × List (String × Bool)) (p : Payment) :
    Store × List (String × Bool) :=
  let r := sweepStep gws parseFraud parseExpiry serialize env now acc.1 p
  (r.1, acc.2 ++ [(p.id, r.2)])

/-- `paymentService.checkAllPendingPayments`: one poller sweep.  The
concurrent dispatch is modelled as the sequential fold over the fetched
snapshot (each spawned check is an independent read-modify-write against
the shared store; the claims proved about the sweep concern per-payment
effects).  Returns the final store and, per swept payment id, whether a
gateway call was made for it. -/
def checkAllPendingPayments (gws : String → StatusOutcome)
    (parseFraud : String → Option String) (parseExpiry : String → Option Int)
    (serialize : Notif → String) (env : DBEnv) (now : Int) (st : Store) :
    Store × List (String × Bool) :=
  if env.pendingFetchFails then (st, [])
  else
    (FindPendingPayments st.payments now).foldl
      (sweepAccum gws parseFraud parseExpiry serialize env now) (st, [])

theorem merge_id (pf : String → Option String) (p : Payment)
    (s tid va bt qr : String) (e : Option Int) (r : String) :
    (mergePayment pf p s tid va bt qr e r).id = p.id := by
  unfold mergePayment preserveIfEmpty setStatusField setTransactionIDField setVANumberField setBankTypeField setQRCodeURLField setExpiryField setResponseField
  rcases e <;> rcases hpf : pf r with _ | fs <;>
    simp [hpf, apply_ite (Payment.id), ite_self]

theorem merge_orderID (pf : String → Option String) (p : Payment)
    (s tid va bt qr : String) (e : Option Int) (r : String) :
    (mergePayment pf p s tid va bt qr e r).orderID = p.orderID := by
  unfold mergePayment preserveIfEmpty setStatusField setTransactionIDField setVANumberField setBankTypeField setQRCodeURLField setExpiryField setResponseField
  rcases e <;> rcases hpf : pf r with _ | fs <;>
    simp [hpf, apply_ite (Payment.orderID), ite_self]

theorem merge_orderUUID (pf : String → Option String) (p : Payment)
    (s tid va bt qr : String) (e : Option Int) (r : String) :
    (mergePayment pf p s tid va bt qr e r).orderUUID = p.orderUUID := by
  unfold mergePayment preserveIfEmpty setStatusField setTransactionIDField setVANumberField setBankTypeField setQRCodeURLField setExpiryField setResponseField
  rcases e <;> rcases hpf : pf r with _ | fs <;>
    simp [hpf, apply_ite (Payment.orderUUID), ite_self]

theorem merge_amount (pf : String → Option String) (p : Payment)
    (s tid va bt qr : String) (e : Option Int) (r : String) :
    (mergePayment pf p s tid va bt qr e r).amount = p.amount := by
  unfold mergePayment preserveIfEmpty setStatusField setTransactionIDField setVANumberField setBankTypeField setQRCodeURLField setExpiryField setResponseField
  rcases e <;> rcases hpf : pf r with _ | fs <;>
    simp [hpf, apply_ite (Payment.amount), ite_self]

theorem merge_totalAmount (pf : String → Option String) (p : Payment)
    (s tid va bt qr : String) (e : Option Int) (r : String) :
    (mergePayment pf p s tid va bt qr e r).totalAmount = p.totalAmount := by
  unfold mergePayment preserveIfEmpty setStatusField setTransactionIDField setVANumberField setBankTypeField setQRCodeURLField setExpiryField setResponseField
  rcases e <;> rcases hpf : pf r with _ | fs <;>
    simp [hpf, apply_ite (Payment.totalAmount), ite_self]

theorem merge_paymentMethod (pf : String → Option String) (p : Payment)
    (s tid va bt qr : String) (e : Option Int) (r : String) :
    (mergePayment pf p s tid va bt qr e r).paymentMethod = p.paymentMethod := by
  unfold mergePayment preserveIfEmpty setStatusField setTransactionIDField setVANumberField setBankTypeField setQRCodeURLField setExpiryField setResponseField
  rcases e <;> rcases hpf : pf r with _ | fs <;>
    simp [hpf, apply_ite (Payment.paymentMethod), ite_self]

theorem merge_paymentType (pf : String → Option String) (p : Payment)
    (s tid va bt qr : String) (e : Option Int) (r : String) :
    (mergePayment pf p s tid va bt qr e r).paymentType = p.paymentType := by
  unfold mergePayment preserveIfEmpty setStatusField setTransactionIDField setVANumberField setBankTypeField setQRCodeURLField setExpiryField setResponseField
  rcases e <;> rcases hpf : pf r with _ | fs <;>
    simp [hpf, apply_ite (Payment.paymentType), ite_self]

theorem merge_createdAt (pf : String → Option String) (p : Payment)
    (s tid va bt qr : String) (e : Option Int) (r : String) :
    (mergePayment pf p s tid va bt qr e r).createdAt = p.createdAt := by
  unfold mergePayment preserveIfEmpty setStatusField setTransactionIDField setVANumberField setBankTypeField setQRCodeURLField setExpiryField setResponseField
  rcases e <;> rcases hpf : pf r with _ | fs <;>
    simp [hpf, apply_ite (Payment.createdAt), ite_self]

theorem merge_status (pf : String → Option String) (p : Payment)
    (s tid va bt qr : String) (e : Option Int) (r : String) :
    (mergePayment pf p s tid va bt qr e r).status = mapMidtransStatusToPaymentStatus s := by
  unfold mergePayment preserveIfEmpty setStatusField setTransactionIDField setVANumberField setBankTypeField setQRCodeURLField setExpiryField setResponseField
  rcases e <;> rcases hpf : pf r with _ | fs <;>
    simp [hpf, apply_ite (Payment.status), ite_self]

theorem merge_transactionID (pf : String → Option String) (p : Payment)
    (s tid va bt qr : String) (e : Option Int) (r : String) :
    (mergePayment pf p s tid va bt qr e r).midtransTransactionID =
      if tid = "" then p.midtransTransactionID else some tid := by
  unfold mergePayment preserveIfEmpty setStatusField setTransactionIDField setVANumberField setBankTypeField setQRCodeURLField setExpiryField setResponseField
  rcases e <;> rcases hpf : pf r with _ | fs <;>
    by_cases htid : tid = "" <;>
    simp [hpf, htid, apply_ite (Payment.midtransTransactionID), ite_self]

theorem merge_vaNumber (pf : String → Option String) (p : Payment)
    (s tid va bt qr : String) (e : Option Int) (r : String) :
    (mergePayment pf p s tid va bt qr e r).vaNumber = if va = "" then p.vaNumber else some va := by
  unfold mergePayment preserveIfEmpty setStatusField setTransactionIDField setVANumberField setBankTypeField setQRCodeURLField setExpiryField setResponseField
  rcases e <;> rcases hpf : pf r with _ | fs <;>
    simp only [hpf, apply_ite (Payment.vaNumber), ite_self] <;>
    rcases hv : p.vaNumber with _ | sv <;>
    by_cases hva : va = "" <;>
    simp_all [optNonEmpty, apply_ite (Payment.vaNumber), ite_self]

theorem merge_bankType (pf : String → Option String) (p : Payment)
    (s tid va bt qr : String) (e : Option Int) (r : String) :
    (mergePayment pf p s tid va bt qr e r).bankType = if bt = "" then p.bankType else some bt := by
  unfold mergePayment preserveIfEmpty setStatusField setTransactionIDField setVANumberField setBankTypeField setQRCodeURLField setExpiryField setResponseField
  rcases e <;> rcases hpf : pf r with _ | fs <;>
    simp only [hpf, apply_ite (Payment.bankType), ite_self] <;>
    rcases hb : p.bankType with _ | sb <;>
    by_cases hbt : bt = "" <;>
    simp_all [optNonEmpty, apply_ite (Payment.bankType), ite_self]

theorem merge_qrCodeURL (pf : String → Option String) (p : Payment)
    (s tid va bt qr : String) (e : Option Int) (r : String) :
    (mergePayment pf p s tid va bt qr e r).qrCodeURL = if qr = "" then p.qrCodeURL else some qr := by
  unfold mergePayment preserveIfEmpty setStatusField setTransactionIDField setVANumberField setBankTypeField setQRCodeURLField setExpiryField setResponseField
  rcases e <;> rcases hpf : pf r with _ | fs <;>
    simp only [hpf, apply_ite (Payment.qrCodeURL), ite_self] <;>
    rcases hq : p.qrCodeURL with _ | sq <;>
    by_cases hqr : qr = "" <;>
    simp_all [optNonEmpty, apply_ite (Payment.qrCodeURL), ite_self]

theorem merge_expiryTime (pf : String → Option String) (p : Payment)
    (s tid va bt qr : String) (e : Option Int) (r : String) :
    (mergePayment pf p s tid va bt qr e r).expiryTime =
      (match e with | some x => some x | none => p.expiryTime) := by
  unfold mergePayment preserveIfEmpty setStatusField setTransactionIDField setVANumberField setBankTypeField setQRCodeURLField setExpiryField setResponseField
  rcases e <;> rcases hpf : pf r with _ | fs <;>
    simp [hpf, apply_ite (Payment.expiryTime), ite_self]

theorem merge_midtransResponse (pf : String → Option String) (p : Payment)
    (s tid va bt qr : String) (e : Option Int) (r : String) :
    (mergePayment pf p s tid va bt qr e r).midtransResponse =
      if r = "" then p.midtransResponse else some r := by
  unfold mergePayment preserveIfEmpty setStatusField setTransactionIDField setVANumberField setBankTypeField setQRCodeURLField setExpiryField setResponseField
  rcases e <;> rcases hpf : pf r with _ | fs <;>
    by_cases hr : r = "" <;>
    simp [hpf, hr, apply_ite (Payment.midtransResponse), ite_self]

theorem merge_fraudStatus (pf : String → Option String) (p : Payment)
    (s tid va bt qr : String) (e : Option Int) (r : String) :
    (mergePayment pf p s tid va bt qr e r).fraudStatus =
      (if r = "" then p.fraudStatus else
        match pf r with
        | some fs => if fs = "" then p.fraudStatus else some fs
        | none => p.fraudStatus) := by
  unfold mergePayment preserveIfEmpty setStatusField setTransactionIDField setVANumberField setBankTypeField setQRCodeURLField setExpiryField setResponseField
  rcases e <;> rcases hpf : pf r with _ | fs <;>
    by_cases hr : r = "" <;>
    simp [hpf, hr, apply_ite (Payment.fraudStatus), ite_self]

theorem Payment.eq_of_fields {a b : Payment}
    (h1 : a.id = b.id) (h2 : a.orderID = b.orderID) (h3 : a.orderUUID = b.orderUUID)
    (h4 : a.midtransTransactionID = b.midtransTransactionID) (h5 : a.amount = b.amount)
    (h6 : a.totalAmount = b.totalAmount) (h7 : a.status = b.status)
    (h8 : a.paymentMethod = b.paymentMethod) (h9 : a.paymentType = b.paymentType)
    (h10 : a.fraudStatus = b.fraudStatus) (h11 : a.vaNumber = b.vaNumber)
    (h12 : a.bankType = b.bankType) (h13 : a.qrCodeURL = b.qrCodeURL)
    (h14 : a.expiryTime = b.expiryTime) (h15 : a.midtransResponse = b.midtransResponse)
    (h16 : a.createdAt = b.createdAt) : a = b := by
  cases a; cases b; simp_all

theorem mergePayment_idem (pf : String → Option String) (p : Payment)
    (s tid va bt qr : String) (e : Option Int) (r : String) :
    mergePayment pf (mergePayment pf p s tid va bt qr e r) s tid va bt qr e r =
      mergePayment pf p s tid va bt qr e r := by
  apply Payment.eq_of_fields <;>
    simp only [merge_id, merge_orderID, merge_orderUUID, merge_transactionID, merge_amount,
      merge_totalAmount, merge_status, merge_paymentMethod, merge_paymentType,
      merge_fraudStatus, merge_vaNumber, merge_bankType, merge_qrCodeURL,
      merge_expiryTime, merge_midtransResponse, merge_createdAt] <;>
    rcases hpf : pf r with _ | fs <;> rcases e <;>
    first
    | (split_ifs <;> simp_all)
    | simp_all

theorem find?_update_self (ps : List Payment) (n : String) (p p' : Payment)
    (hfind : FindByOrderNumber ps n = some p) (hid : p'.id = p.id) (hord : p'.orderID = n) :
    FindByOrderNumber (UpdatePaymentList ps p') n = some p' := by
  induction ps with
  | nil => simp [FindByOrderNumber] at hfind
  | cons q t ih =>
    by_cases hq : q.orderID = n
    · have hqp : q = p := by
        simp [FindByOrderNumber, List.find?_cons, hq] at hfind
        exact hfind
      have hqid : q.id = p'.id := by rw [hqp, hid]
      simp [FindByOrderNumber, UpdatePaymentList, List.find?_cons, hqid, hord]
    · by_cases hqid : q.id = p'.id
      · simp [FindByOrderNumber, UpdatePaymentList, List.find?_cons, hqid, hord]
      · have hfind' : FindByOrderNumber t n = some p := by
          simpa [FindByOrderNumber, List.find?_cons, hq] using hfind
        have := ih hfind'
        simpa [FindByOrderNumber, UpdatePaymentList, List.find?_cons, hqid, hq] using this

theorem findOrder_update_self (os : List Order) (i : String) (o o' : Order)
    (hfind : FindOrderByID os i = some o) (hid : o'.id = o.id) :
    FindOrderByID (UpdateOrderList os o') i = some o' := by
  have hoid : o.id = i := by
    have h1 := List.find?_some hfind
    exact of_decide_eq_true h1
  induction os with
  | nil => simp [FindOrderByID] at hfind
  | cons q t ih =>
    by_cases hq : q.id = i
    · have hqo : q = o := by
        simp [FindOrderByID, List.find?_cons, hq] at hfind
        exact hfind
      have hqid : q.id = o'.id := by rw [hqo, hid]
      have ho'id : o'.id = i := by rw [hid, hoid]
      simp [FindOrderByID, UpdateOrderList, List.find?_cons, hqid, ho'id]
    · by_cases hqid : q.id = o'.id
      · have ho'id : o'.id = i := by rw [hid, hoid]
        simp [FindOrderByID, UpdateOrderList, List.find?_cons, hqid, ho'id]
      · have hfind' : FindOrderByID t i = some o := by
          simpa [FindOrderByID, List.find?_cons, hq] using hfind
        have := ih hfind'
        simpa [FindOrderByID, UpdateOrderList, List.find?_cons, hqid, hq] using this

theorem updatePaymentList_idem (ps : List Payment) (x : Payment) :
    UpdatePaymentList (UpdatePaymentList ps x) x = UpdatePaymentList ps x := by
  induction ps with
  | nil => rfl
  | cons q t ih =>
    by_cases hq : q.id = x.id <;>
      simp [UpdatePaymentList, hq, ih] <;>
      simpa [UpdatePaymentList] using ih

theorem applyOrderEffect_idem (env : DBEnv) (os : List Order)
    (status : PaymentStatus) (u : String) :
    applyOrderEffect env (applyOrderEffect env os status u) status u =
      applyOrderEffect env os status u := by
  by_cases hs : status = .Success
  swap
  · simp [applyOrderEffect, hs]
  by_cases hff : env.orderFindFails
  · simp [applyOrderEffect, hs, hff]
  cases hfind : FindOrderByID os u with
  | none => simp [applyOrderEffect, hs, hff, hfind]
  | some o =>
    by_cases hpend : o.status = "pending"
    · by_cases hupf : env.orderUpdateFails
      · simp [applyOrderEffect, hs, hff, hfind, hpend, hupf]
      · have h2 : FindOrderByID (UpdateOrderList os { o with status := "processing" }) u =
            some { o with status := "processing" } :=
          findOrder_update_self os u o _ hfind rfl
        simp [applyOrderEffect, hs, hff, hfind, hpend, hupf, h2]
    · simp [applyOrderEffect, hs, hff, hfind, hpend]

theorem UpdatePaymentStatus_ok (pf : String → Option String) (env : DBEnv) (st : Store)
    (n s tid va bt qr : String) (e : Option Int) (r : String) (p : Payment)
    (hfind : FindByOrderNumber st.payments n = some p) (hupd : env.paymentUpdateFails = false) :
    UpdatePaymentStatus pf env st n s tid va bt qr e r =
      .ok { payments := UpdatePaymentList st.payments (mergePayment pf p s tid va bt qr e r)
            orders := applyOrderEffect env st.orders (mapMidtransStatusToPaymentStatus s) p.orderUUID } := by
  unfold UpdatePaymentStatus
  rw [hfind]
  simp [hupd]

theorem FindByOrderNumber_orderID (ps : List Payment) (n : String) (p : Payment)
    (h : FindByOrderNumber ps n = some p) : p.orderID = n := by
  unfold FindByOrderNumber at h
  have h2 := List.find?_some h
  simpa using h2

theorem UpdatePaymentStatus_ok_inv (pf : String → Option String) (env : DBEnv) (st : Store)
    (n s tid va bt qr : String) (e : Option Int) (r : String) (st' : Store)
    (h : UpdatePaymentStatus pf env st n s tid va bt qr e r = .ok st') :
    ∃ p, FindByOrderNumber st.payments n = some p ∧ env.paymentUpdateFails = false ∧
      st' = { payments := UpdatePaymentList st.payments (mergePayment pf p s tid va bt qr e r)
              orders := applyOrderEffect env st.orders (mapMidtransStatusToPaymentStatus s) p.orderUUID } := by
  unfold UpdatePaymentStatus at h
  cases hfind : FindByOrderNumber st.payments n with
  | none => rw [hfind] at h; simp at h
  | some p =>
    rw [hfind] at h
    by_cases hupd : env.paymentUpdateFails
    · simp [hupd] at h
    · simp [hupd] at h
      exact ⟨p, rfl, by simp [hupd], h.symm⟩

/- Shared concrete fixtures used by the witness theorems. -/

/-- A `parseFraud` oracle for witnesses: the raw payload parses to no
`fraud_status`. -/
def pfW : String → Option String := fun _ => none

/-- A `parseExpiry` oracle for witnesses: no timestamp format matches. -/
def peW : String → Option Int := fun _ => none

/-- A `serialize` oracle for witnesses. -/
def serW : Notif → String := fun _ => "rawpayload"

/-- A failure-free repository environment. -/
def envW : DBEnv := ⟨false, false, false, false, false⟩

/-- A pending payment with stored VA number and bank code. -/
def pendingPaymentW : Payment :=
  { id := "P1", orderID := "ORD-1", orderUUID := "U1",
    midtransTransactionID := some "T1", amount := 100, totalAmount := 100,
    status := .Pending, paymentMethod := .bank_transfer, paymentType := "midtrans",
    fraudStatus := none, vaNumber := some "12345", bankType := some "bca",
    qrCodeURL := none, expiryTime := none, midtransResponse := none, createdAt := 0 }

/-- The same payment already reconciled to `Success`. -/
def successPaymentW : Payment := { pendingPaymentW with status := .Success }

/-- A pending order linked to the payment fixtures. -/
def orderW : Order :=
  { id := "U1", orderNumber := "ORD-1", shippingCost := 0, insuranceCost := 0,
    warrantyCost := 0, serviceFee := 0, totalDiscount := 0, bonus := 0,
    totalAmount := 100, status := "pending",
    user := { fullName := "Alice", email := "alice@example.com", phone := none },
    orderItems := [{ productID := "PR1", productName := "Widget", quantity := 1, price := 100 }] }

/-- Store with one pending payment and its pending order. -/
def stW : Store := ⟨[pendingPaymentW], [orderW]⟩

/-- Store with one already-successful payment. -/
def stSuccessW : Store := ⟨[successPaymentW], [orderW]⟩

/-- C1: for every stored payment whose canonical status is already
`Success`, the gateway-driven re-check path
(`CheckPaymentStatusFromMidtrans` with that payment's order number)
returns without error, performs no outbound gateway call, and leaves the
store — in particular the stored payment record — completely unchanged,
for every possible gateway behaviour. -/
theorem spec_C1_success_short_circuit (gw : StatusOutcome) (pf : String → Option String)
    (pe : String → Option Int) (ser : Notif → String) (env : DBEnv) (st : Store)
    (n : String) (p : Payment)
    (hfind : FindByOrderNumber st.payments n = some p) (hs : p.status = .Success) :
    CheckPaymentStatusFromMidtrans gw pf pe ser env st n = (.ok st, false) := by
  unfold CheckPaymentStatusFromMidtrans
  rw [hfind]
  simp [hs]

/-- Witness for C1 at a concrete successful payment and a gateway that
would answer with a different status. -/
theorem spec_C1_success_short_circuit_witness :
    CheckPaymentStatusFromMidtrans
      (.httpResp 200 (some ⟨some "ORD-1", some "T1", some "expire", [], none, [], none⟩))
      pfW peW serW envW stSuccessW "ORD-1" = (.ok stSuccessW, false) :=
  spec_C1_success_short_circuit _ pfW peW serW envW stSuccessW "ORD-1" successPaymentW
    (by rfl) (by rfl)

/-- C2: for every stored payment and every reconciliation update, and for
each method-specific field (VA number, bank code, QR code URL): an empty
incoming value leaves the stored value unchanged (in particular a
non-empty stored value is preserved), and a non-empty incoming value
overwrites it. -/
theorem spec_C2_preserve_if_empty (pf : String → Option String) (env : DBEnv) (st : Store)
    (n s tid va bt qr : String) (e : Option Int) (r : String) (p : Payment) (st' : Store)
    (hfind : FindByOrderNumber st.payments n = some p)
    (hok : UpdatePaymentStatus pf env st n s tid va bt qr e r = .ok st') :
    ∃ p', FindByOrderNumber st'.payments n = some p' ∧
      (va = "" → p'.vaNumber = p.vaNumber) ∧ (va ≠ "" → p'.vaNumber = some va) ∧
      (bt = "" → p'.bankType = p.bankType) ∧ (bt ≠ "" → p'.bankType = some bt) ∧
      (qr = "" → p'.qrCodeURL = p.qrCodeURL) ∧ (qr ≠ "" → p'.qrCodeURL = some qr) := by
  obtain ⟨p0, hfind0, hupd, hst⟩ := UpdatePaymentStatus_ok_inv pf env st n s tid va bt qr e r st' hok
  rw [UpdatePaymentStatus_ok pf env st n s tid va bt qr e r p hfind hupd] at hok
  injection hok with hok
  subst hok
  have hord : p.orderID = n := FindByOrderNumber_orderID st.payments n p hfind
  refine ⟨mergePayment pf p s tid va bt qr e r, ?_, ?_, ?_, ?_, ?_, ?_, ?_⟩
  · exact find?_update_self st.payments n p _ hfind (merge_id pf p s tid va bt qr e r)
      (by rw [merge_orderID]; exact hord)
  · intro hva; rw [merge_vaNumber]; simp [hva]
  · intro hva; rw [merge_vaNumber]; simp [hva]
  · intro hbt; rw [merge_bankType]; simp [hbt]
  · intro hbt; rw [merge_bankType]; simp [hbt]
  · intro hqr; rw [merge_qrCodeURL]; simp [hqr]
  · intro hqr; rw [merge_qrCodeURL]; simp [hqr]

/-- The store produced by reconciling a settlement observation with empty
method-specific fields into `stW` (used by the C2 witness). -/
def stC2 : Store :=
  (UpdatePaymentStatus pfW envW stW "ORD-1" "settlement" "T2" "" "" "" none "resp").toOption.getD ⟨[], []⟩

/-- Witness for C2: an observation with empty VA / bank / QR fields leaves
the stored VA number and bank code of `pendingPaymentW` intact. -/
theorem spec_C2_preserve_if_empty_witness :
    ∃ p', FindByOrderNumber stC2.payments "ORD-1" = some p' ∧
      ("" = "" → p'.vaNumber = pendingPaymentW.vaNumber) ∧ ("" ≠ "" → p'.vaNumber = some "") ∧
      ("" = "" → p'.bankType = pendingPaymentW.bankType) ∧ ("" ≠ "" → p'.bankType = some "") ∧
      ("" = "" → p'.qrCodeURL = pendingPaymentW.qrCodeURL) ∧ ("" ≠ "" → p'.qrCodeURL = some "") :=
  spec_C2_preserve_if_empty pfW envW stW "ORD-1" "settlement" "T2" "" "" "" none "resp"
    pendingPaymentW stC2 (by rfl) (by rfl)

/-- C3: reconciling the same observation twice in a row yields exactly the
store (hence the stored Payment record) that reconciling it once yields:
a second `UpdatePaymentStatus` with the same arguments succeeds and is a
no-op. -/
theorem spec_C3_reconcile_idempotent (pf : String → Option String) (env : DBEnv) (st : Store)
    (n s tid va bt qr : String) (e : Option Int) (r : String) (st₁ : Store)
    (h : UpdatePaymentStatus pf env st n s tid va bt qr e r = .ok st₁) :
    UpdatePaymentStatus pf env st₁ n s tid va bt qr e r = .ok st₁ := by
  obtain ⟨p, hfind, hupd, hst⟩ := UpdatePaymentStatus_ok_inv pf env st n s tid va bt qr e r st₁ h
  subst hst
  have hord : p.orderID = n := FindByOrderNumber_orderID st.payments n p hfind
  have hfind1 : FindByOrderNumber
      (UpdatePaymentList st.payments (mergePayment pf p s tid va bt qr e r)) n =
      some (mergePayment pf p s tid va bt qr e r) :=
    find?_update_self st.payments n p _ hfind (merge_id pf p s tid va bt qr e r)
      (by rw [merge_orderID]; exact hord)
  rw [UpdatePaymentStatus_ok pf env _ n s tid va bt qr e r _ hfind1 hupd]
  rw [mergePayment_idem, updatePaymentList_idem, merge_orderUUID, applyOrderEffect_idem]

/-- Witness for C3 at a concrete settlement observation. -/
theorem spec_C3_reconcile_idempotent_witness :
    UpdatePaymentStatus pfW envW stC2 "ORD-1" "settlement" "T2" "" "" "" none "resp" = .ok stC2 :=
  spec_C3_reconcile_idempotent pfW envW stW "ORD-1" "settlement" "T2" "" "" "" none "resp"
    stC2 (by rfl)

/-- C5: when the observed status maps to `Success`, the order projection
runs after the payment is persisted: the linked order moves to
`processing` exactly when it is still `pending` and neither order-side
repository call fails; in every other case (order not `pending`, order
missing, injected load or update failure) the orders table is untouched —
and in all of these cases `UpdatePaymentStatus` still returns success with
the payment update applied, so a downstream order failure never undoes or
fails the payment update. -/
theorem spec_C5_order_projection (pf : String → Option String) (env : DBEnv) (st : Store)
    (n s tid va bt qr : String) (e : Option Int) (r : String) (p : Payment)
    (hfind : FindByOrderNumber st.payments n = some p)
    (hsucc : mapMidtransStatusToPaymentStatus s = .Success)
    (hupd : env.paymentUpdateFails = false) :
    ∃ st', UpdatePaymentStatus pf env st n s tid va bt qr e r = .ok st' ∧
      st'.payments = UpdatePaymentList st.payments (mergePayment pf p s tid va bt qr e r) ∧
      (∀ o, env.orderFindFails = false → FindOrderByID st.orders p.orderUUID = some o →
        o.status = "pending" → env.orderUpdateFails = false →
        FindOrderByID st'.orders p.orderUUID = some { o with status := "processing" }) ∧
      (∀ o, FindOrderByID st.orders p.orderUUID = some o → o.status ≠ "pending" →
        st'.orders = st.orders) ∧
      (FindOrderByID st.orders p.orderUUID = none → st'.orders = st.orders) ∧
      (env.orderFindFails = true → st'.orders = st.orders) ∧
      (env.orderUpdateFails = true → st'.orders = st.orders) := by
  refine ⟨_, UpdatePaymentStatus_ok pf env st n s tid va bt qr e r p hfind hupd,
    rfl, ?_, ?_, ?_, ?_, ?_⟩
  · intro o hff ho hpend hup
    simp only [applyOrderEffect, hsucc, hff, ho, hpend, hup]
    simp only [if_true, if_false, Bool.false_eq_true, reduceIte]
    exact findOrder_update_self st.orders p.orderUUID o _ ho rfl
  · intro o ho hpend
    simp [applyOrderEffect, hsucc, ho, hpend]
  · intro ho
    simp [applyOrderEffect, hsucc, ho]
  · intro hff
    simp [applyOrderEffect, hsucc, hff]
  · intro hup
    cases ho : FindOrderByID st.orders p.orderUUID with
    | none => simp [applyOrderEffect, hsucc, ho]
    | some o => by_cases hpend : o.status = "pending" <;> simp [applyOrderEffect, hsucc, ho, hup, hpend]

/-- Witness for C5 at a concrete settlement observation on a pending order
with no injected failures. -/
theorem spec_C5_order_projection_witness :
    ∃ st', UpdatePaymentStatus pfW envW stW "ORD-1" "settlement" "T2" "" "" "" none "resp" = .ok st' ∧
      st'.payments = UpdatePaymentList stW.payments
        (mergePayment pfW pendingPaymentW "settlement" "T2" "" "" "" none "resp") ∧
      (∀ o, envW.orderFindFails = false → FindOrderByID stW.orders pendingPaymentW.orderUUID = some o →
        o.status = "pending" → envW.orderUpdateFails = false →
        FindOrderByID st'.orders pendingPaymentW.orderUUID = some { o with status := "processing" }) ∧
      (∀ o, FindOrderByID stW.orders pendingPaymentW.orderUUID = some o → o.status ≠ "pending" →
        st'.orders = stW.orders) ∧
      (FindOrderByID stW.orders pendingPaymentW.orderUUID = none → st'.orders = stW.orders) ∧
      (envW.orderFindFails = true → st'.orders = stW.orders) ∧
      (envW.orderUpdateFails = true → st'.orders = stW.orders) :=
  spec_C5_order_projection pfW envW stW "ORD-1" "settlement" "T2" "" "" "" none "resp"
    pendingPaymentW (by rfl) (by rfl) (by rfl)

/-- C10: `UpdatePaymentStatus` overwrites the canonical status with the
mapped observed status with no guard on the stored status: a webhook
notification carrying only `order_id` and `transaction_id` (its
`transaction_status` absent, which maps to `Pending`) succeeds against a
stored payment of any status whatsoever — including `Success`, `Failed`,
`Cancelled` or `Expired` — and resets the stored status to `Pending`. -/
theorem spec_C10_unconditional_overwrite (pf : String → Option String)
    (pe : String → Option Int) (ser : Notif → String) (env : DBEnv) (st : Store)
    (notif : Notif) (n tid : String) (p : Payment)
    (h1 : notif.order_id = some n) (h2 : notif.transaction_id = some tid)
    (h3 : notif.transaction_status = none)
    (hfind : FindByOrderNumber st.payments n = some p)
    (hupd : env.paymentUpdateFails = false) :
    ∃ st', HandleMidtransCallback pf pe ser env st notif = .ok st' ∧
      ∃ p', FindByOrderNumber st'.payments n = some p' ∧ p'.status = .Pending := by
  unfold HandleMidtransCallback
  rw [h1, h2, h3]
  simp only [Option.getD_none]
  refine ⟨_, UpdatePaymentStatus_ok pf env st n "" tid _ _ _ _ _ p hfind hupd, ?_⟩
  refine ⟨_, find?_update_self st.payments n p _ hfind (merge_id pf p "" tid _ _ _ _ _)
    (by rw [merge_orderID]; exact FindByOrderNumber_orderID st.payments n p hfind), ?_⟩
  rw [merge_status]
  rfl

/-- Witness for C10: the minimal webhook applied to a payment already in
`Success` resets it to `Pending`. -/
theorem spec_C10_unconditional_overwrite_witness :
    ∃ st', HandleMidtransCallback pfW peW serW envW stSuccessW
        ⟨some "ORD-1", some "T9", none, [], none, [], none⟩ = .ok st' ∧
      ∃ p', FindByOrderNumber st'.payments "ORD-1" = some p' ∧ p'.status = .Pending :=
  spec_C10_unconditional_overwrite pfW peW serW envW stSuccessW
    ⟨some "ORD-1", some "T9", none, [], none, [], none⟩ "ORD-1" "T9" successPaymentW
    (by rfl) (by rfl) (by rfl) (by rfl) (by rfl)

/-- C4 counterexample: a syntactically valid webhook payload (it carries
both `order_id` and `transaction_id`) whose reconciliation fails (no
payment exists for the order reference) makes the endpoint answer HTTP
400, not an HTTP success acknowledgment. -/
theorem spec_C4_counterexample :
    (MidtransCallback pfW peW serW envW ⟨[], []⟩
        (some ⟨some "ORD-404", some "T1", none, [], none, [], none⟩)).1.code = 400 ∧
    (MidtransCallback pfW peW serW envW ⟨[], []⟩
        (some ⟨some "ORD-404", some "T1", none, [], none, [], none⟩)).1.code ≠ 200 :=
  ⟨rfl, by decide⟩

/-- C4 amended: the webhook endpoint runs the reconciliation synchronously
and mirrors its outcome: an HTTP 200 acknowledgment exactly when
reconciliation succeeds, and an HTTP 400 carrying the reconciliation error
(with the store unchanged) when it fails — the failure is propagated to
the gateway caller, not merely logged. -/
theorem spec_C4_amended (pf : String → Option String) (pe : String → Option Int)
    (ser : Notif → String) (env : DBEnv) (st : Store) (notif : Notif) :
    (∀ st', HandleMidtransCallback pf pe ser env st notif = .ok st' →
      MidtransCallback pf pe ser env st (some notif) =
        (⟨200, "Callback processed successfully"⟩, st')) ∧
    (∀ e, HandleMidtransCallback pf pe ser env st notif = .error e →
      MidtransCallback pf pe ser env st (some notif) = (⟨400, e⟩, st)) := by
  constructor <;> intro x h <;> simp [MidtransCallback, h]

/-- Witness for C4 amended: the concrete failing payload of the
counterexample yields exactly the 400 response with the reconciliation
error and an unchanged store. -/
theorem spec_C4_amended_witness :
    MidtransCallback pfW peW serW envW ⟨[], []⟩
        (some ⟨some "ORD-404", some "T1", none, [], none, [], none⟩) =
      (⟨400, "payment not found for order number: ORD-404"⟩, ⟨[], []⟩) :=
  (spec_C4_amended pfW peW serW envW ⟨[], []⟩
      ⟨some "ORD-404", some "T1", none, [], none, [], none⟩).2
    "payment not found for order number: ORD-404" (by rfl)

/-- The exact sum of line-item amounts (price times quantity). -/
def sumItemAmounts (items : List MidtransItemDetail) : Int :=
  (items.map (fun it => it.price * it.quantity)).sum

theorem foldl_add_eq_sum (items : List MidtransItemDetail) (acc : Int) :
    items.foldl (fun a it => a + it.price * it.quantity) acc =
      acc + (items.map (fun it => it.price * it.quantity)).sum := by
  induction items generalizing acc with
  | nil => simp
  | cons it t ih => simp [ih]; ring

/-- C9: the gross amount sent in the outbound charge request equals the
exact sum over all constructed line items of price times quantity, for
every order snapshot and method — in particular also when that sum differs
from the order's stored total amount, in which case the computed sum (not
the stored total) is what the request carries. -/
theorem spec_C9_gross_amount_sum (cfg : Config) (order : Order) (method : PaymentMethod)
    (bankType : Option String) :
    (buildChargeRequest cfg order method bankType).transactionDetails.grossAmount =
      sumItemAmounts (buildChargeRequest cfg order method bankType).itemDetails ∧
    (computeGrossAmount (buildItemDetails order) ≠ order.totalAmount →
      (buildChargeRequest cfg order method bankType).transactionDetails.grossAmount =
        computeGrossAmount (buildItemDetails order)) := by
  have hItems : (buildChargeRequest cfg order method bankType).itemDetails =
      buildItemDetails order := by
    cases method <;> rfl
  have hGross : (buildChargeRequest cfg order method bankType).transactionDetails.grossAmount =
      computeGrossAmount (buildItemDetails order) := by
    cases method <;> rfl
  constructor
  · rw [hItems, hGross]
    unfold computeGrossAmount sumItemAmounts
    rw [foldl_add_eq_sum]
    simp
  · intro _
    exact hGross

/-- An order whose stored total (999) disagrees with the sum of its line
items (100), for the C9 witness. -/
def orderMismatchW : Order := { orderW with totalAmount := 999 }

/-- Witness for C9 at the mismatching order: the request carries the
computed sum. -/
theorem spec_C9_gross_amount_sum_witness :
    (buildChargeRequest ⟨"SB-key", "", "0.0.0.0", "8080"⟩ orderMismatchW .qris none).transactionDetails.grossAmount =
      sumItemAmounts (buildChargeRequest ⟨"SB-key", "", "0.0.0.0", "8080"⟩ orderMismatchW .qris none).itemDetails ∧
    (computeGrossAmount (buildItemDetails orderMismatchW) ≠ orderMismatchW.totalAmount →
      (buildChargeRequest ⟨"SB-key", "", "0.0.0.0", "8080"⟩ orderMismatchW .qris none).transactionDetails.grossAmount =
        computeGrossAmount (buildItemDetails orderMismatchW)) :=
  spec_C9_gross_amount_sum ⟨"SB-key", "", "0.0.0.0", "8080"⟩ orderMismatchW .qris none

theorem FindOrderByID_id (os : List Order) (i : String) (o : Order)
    (h : FindOrderByID os i = some o) : o.id = i := by
  unfold FindOrderByID at h
  have h2 := List.find?_some h
  simpa using h2

/-- The charge-call failure modes of claim C6: network error, body-read
error, non-2xx status, or a 2xx body whose JSON parse fails. -/
def chargeOutcomeFailed : ChargeOutcome → Bool
  | .netError => true
  | .readError => true
  | .httpResp code _ parsed => if code ≠ 200 ∧ code ≠ 201 then true else parsed.isNone

/-- C6: when the outbound charge call fails (network error, non-2xx
response, or malformed response body), `CreatePayment` still returns
success with a payment that has status `Pending` and no gateway
transaction id, and that payment has been persisted (a record with its id,
`Pending` status and no transaction id is in the store). -/
theorem spec_C6_gateway_failure_degrades (cfg : Config)
    (gw : MidtransChargeRequest → ChargeOutcome) (pe : String → Option Int) (env : DBEnv)
    (newID : String) (now : Int) (st : Store) (orderID : String) (method : PaymentMethod)
    (bankType : Option String) (order : Order)
    (hff : env.orderFindFails = false)
    (horder : FindOrderByID st.orders orderID = some order)
    (hnopay : FindByOrderUUID st.payments orderID = none)
    (hcreate : env.paymentCreateFails = false)
    (hupdf : env.paymentUpdateFails = false)
    (hcfg : cfg.midtransServerKey ≠ "")
    (hgw : chargeOutcomeFailed (gw (buildChargeRequest cfg order method bankType)) = true) :
    ∃ pay st', CreatePayment cfg gw pe env newID now st orderID method bankType = .ok (pay, st') ∧
      pay.status = .Pending ∧ pay.midtransTransactionID = none ∧ pay ∈ st'.payments := by
  unfold CreatePayment
  rw [hff, horder, hnopay, hcreate]
  simp only [Bool.false_eq_true, if_false, hcfg, reduceIte]
  cases hg : gw (buildChargeRequest cfg order method bankType) with
  | netError =>
    refine ⟨_, _, rfl, rfl, rfl, ?_⟩
    simp
  | readError =>
    refine ⟨_, _, rfl, rfl, rfl, ?_⟩
    simp
  | httpResp code rawBody parsed =>
    dsimp only
    by_cases hcode : code ≠ 200 ∧ code ≠ 201
    · rw [if_pos hcode]
      simp only [hupdf, Bool.false_eq_true, if_false]
      refine ⟨_, _, rfl, rfl, rfl, ?_⟩
      simp only [UpdatePaymentList]
      refine List.mem_map.mpr ⟨_, List.mem_append_right _ (List.mem_singleton.mpr rfl), ?_⟩
      simp
    · rw [if_neg hcode]
      rw [hg] at hgw
      simp only [chargeOutcomeFailed] at hgw
      rw [if_neg hcode] at hgw
      cases hp : parsed with
      | some resp => rw [hp] at hgw; simp at hgw
      | none =>
        refine ⟨_, _, rfl, rfl, rfl, ?_⟩
        simp

/-- Witness for C6: gateway unreachable, payment still persisted as a
linkless `Pending` record. -/
theorem spec_C6_gateway_failure_degrades_witness :
    ∃ pay st', CreatePayment ⟨"SB-key", "", "0.0.0.0", "8080"⟩ (fun _ => .netError) peW envW
        "NEW1" 0 ⟨[], [orderW]⟩ "U1" .qris none = .ok (pay, st') ∧
      pay.status = .Pending ∧ pay.midtransTransactionID = none ∧ pay ∈ st'.payments :=
  spec_C6_gateway_failure_degrades ⟨"SB-key", "", "0.0.0.0", "8080"⟩ (fun _ => .netError) peW envW
    "NEW1" 0 ⟨[], [orderW]⟩ "U1" .qris none orderW
    (by rfl) (by rfl) (by rfl) (by rfl) (by rfl) (by decide) (by rfl)

theorem FindPaymentByID_id (ps : List Payment) (i : String) (p : Payment)
    (h : FindPaymentByID ps i = some p) : p.id = i := by
  unfold FindPaymentByID at h
  have h2 := List.find?_some h
  simpa using h2

/-- The invariant of claim C8: at most one payment row per order. -/
def atMostOnePerOrder (payments : List Payment) : Prop :=
  ∀ oid, payments.countP (fun p => p.orderUUID = oid) ≤ 1

theorem updatePaymentList_map_orderUUID (ps : List Payment) (x : Payment)
    (h : ∀ q ∈ ps, q.id = x.id → q.orderUUID = x.orderUUID) :
    (UpdatePaymentList ps x).map Payment.orderUUID = ps.map Payment.orderUUID := by
  induction ps with
  | nil => rfl
  | cons q t ih =>
    have hq := h q (by simp)
    have ht : ∀ q' ∈ t, q'.id = x.id → q'.orderUUID = x.orderUUID :=
      fun q' hm => h q' (by simp [hm])
    by_cases hqid : q.id = x.id
    · simpa [UpdatePaymentList, hqid, (hq hqid).symm] using ih ht
    · simpa [UpdatePaymentList, hqid] using ih ht

theorem countP_orderUUID_of_map_eq {ps ps' : List Payment}
    (h : ps.map Payment.orderUUID = ps'.map Payment.orderUUID) (oid : String) :
    ps.countP (fun p => p.orderUUID = oid) = ps'.countP (fun p => p.orderUUID = oid) := by
  have h2 := congrArg (List.countP (fun u => u = oid)) h
  simpa [List.countP_map, Function.comp] using h2

theorem atMostOne_append_new (ps : List Payment) (p : Payment)
    (hnone : FindByOrderUUID ps p.orderUUID = none)
    (hinv : atMostOnePerOrder ps) :
    atMostOnePerOrder (ps ++ [p]) := by
  intro oid
  rw [List.countP_append]
  by_cases hoid : p.orderUUID = oid
  · have hzero : ps.countP (fun q => q.orderUUID = oid) = 0 := by
      rw [List.countP_eq_zero]
      intro q hq
      have hq2 := List.find?_eq_none.mp hnone q hq
      simp only [decide_eq_true_eq] at hq2 ⊢
      rw [← hoid]
      exact hq2
    simp [hzero, hoid]
  · have hone : List.countP (fun q => decide (q.orderUUID = oid)) [p] = 0 := by
      simp [hoid]
    simp only [hone, Nat.add_zero]
    exact hinv oid

theorem atMostOne_update (ps : List Payment) (x : Payment)
    (h : ∀ q ∈ ps, q.id = x.id → q.orderUUID = x.orderUUID)
    (hinv : atMostOnePerOrder ps) :
    atMostOnePerOrder (UpdatePaymentList ps x) := by
  intro oid
  rw [countP_orderUUID_of_map_eq (updatePaymentList_map_orderUUID ps x h) oid]
  exact hinv oid

theorem fresh_update_cond (ps : List Payment) (p x : Payment)
    (hfresh : ∀ q ∈ ps, q.id ≠ p.id) (hid : x.id = p.id) (huuid : x.orderUUID = p.orderUUID) :
    ∀ q ∈ ps ++ [p], q.id = x.id → q.orderUUID = x.orderUUID := by
  intro q hq hqid
  rcases List.mem_append.mp hq with hmem | hmem
  · exact absurd (hqid.trans hid) (hfresh q hmem)
  · have hqp : q = p := by simpa using hmem
    rw [hqp, huuid]

theorem applyUpdateMap_id (p : Payment) (tid : String) (status : PaymentStatus)
    (fs resp va bt qr : String) (e : Option Int) :
    (applyUpdateMap p tid status fs resp va bt qr e).id = p.id := by
  unfold applyUpdateMap
  rcases e <;> simp [apply_ite (Payment.id), ite_self]

theorem applyUpdateMap_orderUUID (p : Payment) (tid : String) (status : PaymentStatus)
    (fs resp va bt qr : String) (e : Option Int) :
    (applyUpdateMap p tid status fs resp va bt qr e).orderUUID = p.orderUUID := by
  unfold applyUpdateMap
  rcases e <;> simp [apply_ite (Payment.orderUUID), ite_self]

theorem updatePaymentFields_ok_inv (env : DBEnv) (ps : List Payment) (pid tid : String)
    (status : PaymentStatus) (fs resp va bt qr : String) (e : Option Int) (ps' : List Payment)
    (h : updatePaymentFields env ps pid tid status fs resp va bt qr e = .ok ps') :
    ∃ f, FindPaymentByID ps pid = some f ∧
      ps' = UpdatePaymentList ps (applyUpdateMap f tid status fs resp va bt qr e) := by
  unfold updatePaymentFields at h
  cases hf : FindPaymentByID ps pid with
  | none => rw [hf] at h; simp at h
  | some f =>
    rw [hf] at h
    by_cases hupd : env.paymentUpdateFails
    · simp [hupd] at h
    · simp only [hupd, Bool.false_eq_true, if_false, Except.ok.injEq] at h
      exact ⟨f, rfl, h.symm⟩

/-- C8: if a payment already exists for the order, `CreatePayment` returns
exactly that payment with the store unchanged; and for every outcome of
`CreatePayment` (with a fresh generated primary key), the
at-most-one-payment-per-order invariant is preserved, so any sequence of
`CreatePayment` calls leaves at most one Payment row per order. -/
theorem spec_C8_one_payment_per_order (cfg : Config)
    (gw : MidtransChargeRequest → ChargeOutcome) (pe : String → Option Int) (env : DBEnv)
    (newID : String) (now : Int) (st : Store) (orderID : String) (method : PaymentMethod)
    (bankType : Option String)
    (hfresh : ∀ q ∈ st.payments, q.id ≠ newID)
    (hinv : atMostOnePerOrder st.payments) :
    (∀ ex, FindByOrderUUID st.payments orderID = some ex →
      env.orderFindFails = false → (∃ o, FindOrderByID st.orders orderID = some o) →
      CreatePayment cfg gw pe env newID now st orderID method bankType = .ok (ex, st)) ∧
    (∀ pay st', CreatePayment cfg gw pe env newID now st orderID method bankType = .ok (pay, st') →
      atMostOnePerOrder st'.payments) := by
  constructor
  · rintro ex hex hff ⟨o, ho⟩
    unfold CreatePayment
    simp [hff, ho, hex]
  · intro pay st' h
    unfold CreatePayment at h
    by_cases hff : env.orderFindFails
    · simp [hff] at h
    simp only [hff, Bool.false_eq_true, if_false] at h
    cases ho : FindOrderByID st.orders orderID with
    | none => rw [ho] at h; simp at h
    | some order =>
    rw [ho] at h
    cases hex : FindByOrderUUID st.payments orderID with
    | some ex =>
      rw [hex] at h
      simp only [Except.ok.injEq, Prod.mk.injEq] at h
      rw [← h.2]
      exact hinv
    | none =>
    rw [hex] at h
    by_cases hcf : env.paymentCreateFails
    · simp [hcf] at h
    simp only [hcf, Bool.false_eq_true, if_false] at h
    have horderid : order.id = orderID := FindOrderByID_id st.orders orderID order ho
    have hbase : atMostOnePerOrder (st.payments ++ [newPaymentRecord newID now order method]) := by
      apply atMostOne_append_new _ _ _ hinv
      simpa [newPaymentRecord, horderid] using hex
    have hfreshbase : ∀ q ∈ st.payments ++ [newPaymentRecord newID now order method],
        q.id = newID → q = newPaymentRecord newID now order method := by
      intro q hq hqid
      rcases List.mem_append.mp hq with hmem | hmem
      · exact absurd hqid (hfresh q hmem)
      · simpa using hmem
    by_cases hk : cfg.midtransServerKey = ""
    · rw [if_pos hk] at h
      simp only [Except.ok.injEq, Prod.mk.injEq] at h
      rw [← h.2]
      exact hbase
    rw [if_neg hk] at h
    cases hg : gw (buildChargeRequest cfg order method bankType) with
    | netError =>
      rw [hg] at h
      simp only [Except.ok.injEq, Prod.mk.injEq] at h
      rw [← h.2]
      exact hbase
    | readError =>
      rw [hg] at h
      simp only [Except.ok.injEq, Prod.mk.injEq] at h
      rw [← h.2]
      exact hbase
    | httpResp code rawBody parsed =>
      rw [hg] at h
      dsimp only at h
      by_cases hcode : code ≠ 200 ∧ code ≠ 201
      · rw [if_pos hcode] at h
        simp only [Except.ok.injEq, Prod.mk.injEq] at h
        rw [← h.2]
        by_cases hupd : env.paymentUpdateFails
        · simp only [hupd, if_true]
          exact hbase
        · simp only [hupd, Bool.false_eq_true, if_false]
          apply atMostOne_update _ _ _ hbase
          intro q hq hqid
          have hq2 := hfreshbase q hq (by simpa [newPaymentRecord] using hqid)
          rw [hq2]
      · rw [if_neg hcode] at h
        cases hp : parsed with
        | none =>
          rw [hp] at h
          simp only [Except.ok.injEq, Prod.mk.injEq] at h
          rw [← h.2]
          exact hbase
        | some resp =>
          rw [hp] at h
          dsimp only at h
          cases hupf : updatePaymentFields env
              (st.payments ++ [newPaymentRecord newID now order method])
              ((newPaymentRecord newID now order method).id) resp.transaction_id
              (mapMidtransStatusToPaymentStatus resp.transaction_status) resp.fraud_status
              rawBody (extractVA resp.va_numbers).1 (extractVA resp.va_numbers).2
              (extractQRCreate resp) (if resp.expiry_time ≠ "" then pe resp.expiry_time else none) with
          | error msg =>
            rw [hupf] at h
            dsimp only at h
            cases hfind2 : FindPaymentByID
                (st.payments ++ [newPaymentRecord newID now order method])
                ((newPaymentRecord newID now order method).id) with
            | none =>
              rw [hfind2] at h
              simp only [Except.ok.injEq, Prod.mk.injEq] at h
              rw [← h.2]
              exact hbase
            | some updated =>
              rw [hfind2] at h
              simp only [Except.ok.injEq, Prod.mk.injEq] at h
              rw [← h.2]
              exact hbase
          | ok ps2 =>
            rw [hupf] at h
            dsimp only at h
            obtain ⟨f, hf, hps2⟩ := updatePaymentFields_ok_inv env _ _ _ _ _ _ _ _ _ _ _ hupf
            have hfid : f.id = newID := FindPaymentByID_id _ _ _ hf
            have hfmem := List.mem_of_find?_eq_some hf
            have hfval : f = newPaymentRecord newID now order method :=
              hfreshbase f hfmem hfid
            have hps2inv : atMostOnePerOrder ps2 := by
              rw [hps2]
              apply atMostOne_update _ _ _ hbase
              intro q hq hqid
              rw [applyUpdateMap_orderUUID]
              rw [applyUpdateMap_id, hfid] at hqid
              have hq2 := hfreshbase q hq hqid
              rw [hq2, hfval]
            cases hfind2 : FindPaymentByID ps2 ((newPaymentRecord newID now order method).id) with
            | none =>
              rw [hfind2] at h
              simp only [Except.ok.injEq, Prod.mk.injEq] at h
              rw [← h.2]
              exact hps2inv
            | some updated =>
              rw [hfind2] at h
              simp only [Except.ok.injEq, Prod.mk.injEq] at h
              rw [← h.2]
              exact hps2inv

/-- A configured-gateway `Config` fixture. -/
def cfgW : Config := ⟨"SB-key", "", "0.0.0.0", "8080"⟩

/-- Witness for C8 on a store that already holds the payment for order
`U1`. -/
theorem spec_C8_one_payment_per_order_witness :
    (∀ ex, FindByOrderUUID stW.payments "U1" = some ex →
      envW.orderFindFails = false → (∃ o, FindOrderByID stW.orders "U1" = some o) →
      CreatePayment cfgW (fun _ => .netError) peW envW "NEW2" 0 stW "U1" .qris none = .ok (ex, stW)) ∧
    (∀ pay st', CreatePayment cfgW (fun _ => .netError) peW envW "NEW2" 0 stW "U1" .qris none = .ok (pay, st') →
      atMostOnePerOrder st'.payments) :=
  spec_C8_one_payment_per_order cfgW (fun _ => .netError) peW envW "NEW2" 0 stW "U1" .qris none
    (by intro q hq; simp [stW] at hq; subst hq; decide)
    (fun oid => le_trans (List.countP_le_length _) (by simp [stW]))

theorem FindByOrderNumber_mem (ps : List Payment) (n : String) (p : Payment)
    (h : FindByOrderNumber ps n = some p) : p ∈ ps := by
  unfold FindByOrderNumber at h
  exact List.mem_of_find?_eq_some h

theorem FindPaymentByID_mem (ps : List Payment) (i : String) (p : Payment)
    (h : FindPaymentByID ps i = some p) : p ∈ ps := by
  unfold FindPaymentByID at h
  exact List.mem_of_find?_eq_some h

theorem payment_id_inj (ps : List Payment) (hids : (ps.map Payment.id).Nodup)
    {a b : Payment} (ha : a ∈ ps) (hb : b ∈ ps) (h : a.id = b.id) : a = b :=
  List.inj_on_of_nodup_map hids ha hb h

theorem findPaymentByID_update (ps : List Payment) (i : String) (r x : Payment)
    (hfind : FindPaymentByID ps i = some r) (hid : x.id = i) :
    FindPaymentByID (UpdatePaymentList ps x) i = some x := by
  induction ps with
  | nil => simp [FindPaymentByID] at hfind
  | cons q t ih =>
    by_cases hq : q.id = i
    · have hqx : q.id = x.id := by rw [hq, hid]
      simp [FindPaymentByID, UpdatePaymentList, List.find?_cons, hqx, hid]
    · have hqx : ¬ q.id = x.id := by rw [hid]; exact hq
      have hfind' : FindPaymentByID t i = some r := by
        simpa [FindPaymentByID, List.find?_cons, hq] using hfind
      have := ih hfind'
      simpa [FindPaymentByID, UpdatePaymentList, List.find?_cons, hq, hqx] using this

theorem findPaymentByID_update_frame (ps : List Payment) (i : String) (x : Payment)
    (hne : x.id ≠ i) :
    FindPaymentByID (UpdatePaymentList ps x) i = FindPaymentByID ps i := by
  induction ps with
  | nil => rfl
  | cons q t ih =>
    show FindPaymentByID ((if q.id = x.id then x else q) :: UpdatePaymentList t x) i =
      FindPaymentByID (q :: t) i
    unfold FindPaymentByID at ih ⊢
    by_cases hqx : q.id = x.id
    · rw [if_pos hqx]
      rw [List.find?_cons_of_neg _ (by simpa using hne),
        List.find?_cons_of_neg _ (by simp; exact fun hc => hne (hqx ▸ hc))]
      exact ih
    · rw [if_neg hqx]
      by_cases hq : q.id = i
      · rw [List.find?_cons_of_pos _ (by simpa using hq),
          List.find?_cons_of_pos _ (by simpa using hq)]
      · rw [List.find?_cons_of_neg _ (by simpa using hq),
          List.find?_cons_of_neg _ (by simpa using hq)]
        exact ih

theorem updatePaymentList_map_id (ps : List Payment) (x : Payment) :
    (UpdatePaymentList ps x).map Payment.id = ps.map Payment.id := by
  induction ps with
  | nil => rfl
  | cons q t ih =>
    by_cases hq : q.id = x.id
    · simpa [UpdatePaymentList, hq] using ih
    · simpa [UpdatePaymentList, hq] using ih

theorem FindPaymentByID_of_mem_nodup (ps : List Payment) (p : Payment)
    (hids : (ps.map Payment.id).Nodup) (hp : p ∈ ps) :
    FindPaymentByID ps p.id = some p := by
  induction ps with
  | nil => simp at hp
  | cons q t ih =>
    rcases List.mem_cons.mp hp with hqp | hmem
    · simp [FindPaymentByID, List.find?_cons, hqp]
    · by_cases hq : q.id = p.id
      · have : q = p := payment_id_inj (q :: t) hids (by simp) (by simp [hmem]) hq
        simp [FindPaymentByID, List.find?_cons, this]
      · have hids' : (t.map Payment.id).Nodup := by
          simp only [List.map_cons, List.nodup_cons] at hids
          exact hids.2
        have := ih hids' hmem
        simpa [FindPaymentByID, List.find?_cons, hq] using this

theorem Check_ok_inv (gw : StatusOutcome) (pf : String → Option String)
    (pe : String → Option Int) (ser : Notif → String) (env : DBEnv) (stc : Store)
    (n : String) (st'' : Store) (made : Bool)
    (h : CheckPaymentStatusFromMidtrans gw pf pe ser env stc n = (.ok st'', made)) :
    st'' = stc ∨ ∃ f, FindByOrderNumber stc.payments n = some f ∧
      ∃ m, m.id = f.id ∧ m.orderID = f.orderID ∧
        st''.payments = UpdatePaymentList stc.payments m := by
  unfold CheckPaymentStatusFromMidtrans at h
  cases hfind : FindByOrderNumber stc.payments n with
  | none => rw [hfind] at h; simp at h
  | some f =>
    rw [hfind] at h
    dsimp only at h
    by_cases hsucc : f.status = .Success
    · rw [if_pos hsucc] at h
      simp only [Prod.mk.injEq, Except.ok.injEq] at h
      exact Or.inl h.1.symm
    rw [if_neg hsucc] at h
    by_cases htx : optNonEmpty f.midtransTransactionID
    swap
    · simp [htx] at h
    simp only [htx, not_true_eq_false, Bool.false_eq_true, if_false, reduceIte] at h
    cases gw with
    | netError => simp at h
    | readError => simp at h
    | httpResp code parsed =>
      by_cases hcode : code ≠ 200
      · simp [hcode] at h
      simp only [hcode, not_false_eq_true, Bool.false_eq_true, if_false, reduceIte] at h
      cases parsed with
      | none => simp at h
      | some resp =>
        dsimp only at h
        cases hts : resp.transaction_status with
        | none => rw [hts] at h; simp at h
        | some ts =>
          rw [hts] at h
          dsimp only at h
          by_cases hts2 : ts = ""
          · simp [hts2] at h
          simp only [hts2, Bool.false_eq_true, if_false, reduceIte, Prod.mk.injEq] at h
          obtain ⟨p0, hfind0, hupd0, hst⟩ :=
            UpdatePaymentStatus_ok_inv pf env stc n ts _ _ _ _ _ _ _ h.1
          rw [hfind] at hfind0
          injection hfind0 with hpf
          subst hpf
          refine Or.inr ⟨f, rfl, mergePayment pf f ts (resp.transaction_id.getD "")
              (extractVA resp.va_numbers).1 (extractVA resp.va_numbers).2
              (if extractQRFromActions resp.actions = "" ∧ optNonEmpty f.qrCodeURL
                then f.qrCodeURL.getD "" else extractQRFromActions resp.actions)
              (parseExpiryField pe resp.expiry_time) (ser resp),
            merge_id pf f ts _ _ _ _ _ _, merge_orderID pf f ts _ _ _ _ _ _, ?_⟩
          rw [hst]

theorem sweepStep_expired (gws : String → StatusOutcome) (pf : String → Option String)
    (pe : String → Option Int) (ser : Notif → String) (env : DBEnv) (now : Int)
    (stc : Store) (q : Payment)
    (htx : optNonEmpty q.midtransTransactionID = true)
    (hexp : expiredBefore q.expiryTime now = true)
    (hupd : env.paymentUpdateFails = false) :
    sweepStep gws pf pe ser env now stc q =
      ({ stc with payments := UpdatePaymentList stc.payments { q with status := .Expired } },
       false) := by
  unfold sweepStep
  simp [htx, hexp, hupd]

theorem sweepStep_frame (gws : String → StatusOutcome) (pf : String → Option String)
    (pe : String → Option Int) (ser : Notif → String) (env : DBEnv) (now : Int)
    (stc : Store) (q : Payment) (i : String) (r : Payment)
    (hids : (stc.payments.map Payment.id).Nodup)
    (hr : FindPaymentByID stc.payments i = some r)
    (hqid : q.id ≠ i)
    (hqord : q.orderID ≠ r.orderID) :
    FindPaymentByID (sweepStep gws pf pe ser env now stc q).1.payments i = some r ∧
    (sweepStep gws pf pe ser env now stc q).1.payments.map Payment.id =
      stc.payments.map Payment.id := by
  unfold sweepStep
  by_cases htx : optNonEmpty q.midtransTransactionID
  swap
  · simp [htx, hr]
  simp only [htx, not_true_eq_false, Bool.false_eq_true, if_false, reduceIte]
  by_cases hexp : expiredBefore q.expiryTime now
  · simp only [hexp, if_true, reduceIte]
    by_cases hupd : env.paymentUpdateFails
    · simp [hupd, hr]
    · simp only [hupd, Bool.false_eq_true, if_false]
      constructor
      · show FindPaymentByID (UpdatePaymentList stc.payments { q with status := .Expired }) i = some r
        rw [findPaymentByID_update_frame _ _ _ (by simpa using hqid)]
        exact hr
      · exact updatePaymentList_map_id stc.payments { q with status := .Expired }
  · simp only [hexp, Bool.false_eq_true, if_false]
    rcases hchk : CheckPaymentStatusFromMidtrans (gws q.orderID) pf pe ser env stc q.orderID
      with ⟨res, made⟩
    cases res with
    | error msg =>
      dsimp only
      exact ⟨hr, rfl⟩
    | ok st'' =>
      dsimp only
      rcases Check_ok_inv _ _ _ _ _ _ _ _ _ hchk with heq | ⟨f, hfind, m, hmid, hmord, hps⟩
      · subst heq
        exact ⟨hr, rfl⟩
      · have hford : f.orderID = q.orderID := FindByOrderNumber_orderID _ _ _ hfind
        have hfne : f.id ≠ i := by
          intro hc
          have hrmem := FindPaymentByID_mem _ _ _ hr
          have hfmem := FindByOrderNumber_mem _ _ _ hfind
          have hrid : r.id = i := FindPaymentByID_id _ _ _ hr
          have hfr : f = r := payment_id_inj _ hids hfmem hrmem (by rw [hc, hrid])
          apply hqord
          rw [← hford, hfr]
        constructor
        · show FindPaymentByID st''.payments i = some r
          rw [hps, findPaymentByID_update_frame _ _ _ (by rw [hmid]; exact hfne)]
          exact hr
        · show st''.payments.map Payment.id = stc.payments.map Payment.id
          rw [hps]
          exact updatePaymentList_map_id stc.payments m

theorem sweep_fold_log_mono (gws : String → StatusOutcome) (pf : String → Option String)
    (pe : String → Option Int) (ser : Notif → String) (env : DBEnv) (now : Int)
    (L : List Payment) (acc : Store × List (String × Bool)) (x : String × Bool)
    (hx : x ∈ acc.2) :
    x ∈ (L.foldl (sweepAccum gws pf pe ser env now) acc).2 := by
  induction L generalizing acc with
  | nil => exact hx
  | cons q t ih =>
    rw [List.foldl_cons]
    apply ih
    show x ∈ acc.2 ++ [(q.id, (sweepStep gws pf pe ser env now acc.1 q).2)]
    exact List.mem_append_left _ hx

theorem sweep_fold_frame (gws : String → StatusOutcome) (pf : String → Option String)
    (pe : String → Option Int) (ser : Notif → String) (env : DBEnv) (now : Int)
    (L : List Payment) (i : String) :
    ∀ (stc : Store) (log : List (String × Bool)) (r : Payment),
    (stc.payments.map Payment.id).Nodup →
    FindPaymentByID stc.payments i = some r →
    (∀ q ∈ L, q.id ≠ i ∧ q.orderID ≠ r.orderID) →
    FindPaymentByID (L.foldl (sweepAccum gws pf pe ser env now) (stc, log)).1.payments i = some r ∧
    (L.foldl (sweepAccum gws pf pe ser env now) (stc, log)).1.payments.map Payment.id =
      stc.payments.map Payment.id := by
  induction L with
  | nil =>
    intro stc log r _ hr _
    exact ⟨hr, rfl⟩
  | cons q t ih =>
    intro stc log r hids hr hL
    have hq := hL q (by simp)
    obtain ⟨hfr, hmap⟩ := sweepStep_frame gws pf pe ser env now stc q i r hids hr hq.1 hq.2
    have hids' : ((sweepStep gws pf pe ser env now stc q).1.payments.map Payment.id).Nodup := by
      rw [hmap]; exact hids
    have hL' : ∀ q' ∈ t, q'.id ≠ i ∧ q'.orderID ≠ r.orderID :=
      fun q' hm => hL q' (by simp [hm])
    rw [List.foldl_cons]
    obtain ⟨h1, h2⟩ := ih (sweepStep gws pf pe ser env now stc q).1
      (log ++ [(q.id, (sweepStep gws pf pe ser env now stc q).2)]) r hids' hfr hL'
    exact ⟨h1, h2.trans hmap⟩

/-- C7: a pollable pending payment (status `Pending`, carrying a gateway
transaction id, inside the 48-hour window) whose expiry deadline lies in
the past at sweep time is marked `Expired` and persisted by one poller
sweep, and the sweep makes no outbound gateway call for that payment
(its entry in the sweep's per-payment gateway-call log is `false`), under
the DB uniqueness invariants (distinct primary keys and distinct order
numbers). -/
theorem spec_C7_expiry_precedence (gws : String → StatusOutcome)
    (pf : String → Option String) (pe : String → Option Int) (ser : Notif → String)
    (env : DBEnv) (now : Int) (st : Store) (p : Payment) (e : Int)
    (hids : (st.payments.map Payment.id).Nodup)
    (hords : (st.payments.map Payment.orderID).Nodup)
    (hmem : p ∈ FindPendingPayments st.payments now)
    (hexp : p.expiryTime = some e) (hlt : e < now)
    (hfetch : env.pendingFetchFails = false)
    (hupd : env.paymentUpdateFails = false) :
    (p.id, false) ∈ (checkAllPendingPayments gws pf pe ser env now st).2 ∧
    FindPaymentByID (checkAllPendingPayments gws pf pe ser env now st).1.payments p.id =
      some { p with status := .Expired } := by
  have hpend_sub : ∀ q ∈ FindPendingPayments st.payments now, q ∈ st.payments := by
    intro q hq
    unfold FindPendingPayments at hq
    exact List.mem_of_mem_filter (List.mem_of_mem_filter hq)
  have hptx : optNonEmpty p.midtransTransactionID = true := by
    unfold FindPendingPayments at hmem
    exact (List.mem_filter.mp hmem).2
  have hpmem : p ∈ st.payments := hpend_sub p hmem
  have hnodup_payments : st.payments.Nodup := List.Nodup.of_map _ hords
  have hnodup_pending : (FindPendingPayments st.payments now).Nodup := by
    unfold FindPendingPayments
    exact (hnodup_payments.filter _).filter _
  obtain ⟨L₁, L₂, hsplit⟩ := List.append_of_mem hmem
  have hnotmem : p ∉ L₁ ∧ p ∉ L₂ := by
    rw [hsplit] at hnodup_pending
    rw [List.nodup_append] at hnodup_pending
    obtain ⟨h1, h2, hdisj⟩ := hnodup_pending
    rw [List.nodup_cons] at h2
    exact ⟨fun hc => hdisj hc (by simp), h2.1⟩
  have hqfacts : ∀ q ∈ FindPendingPayments st.payments now, q ≠ p →
      q.id ≠ p.id ∧ q.orderID ≠ p.orderID := by
    intro q hq hne
    have hqmem := hpend_sub q hq
    constructor
    · intro hc; exact hne (payment_id_inj st.payments hids hqmem hpmem hc)
    · intro hc; exact hne (List.inj_on_of_nodup_map hords hqmem hpmem hc)
  unfold checkAllPendingPayments
  simp only [hfetch, Bool.false_eq_true, if_false]
  rw [hsplit, List.foldl_append, List.foldl_cons]
  have hrp : FindPaymentByID st.payments p.id = some p :=
    FindPaymentByID_of_mem_nodup st.payments p hids hpmem
  have hL₁ : ∀ q ∈ L₁, q.id ≠ p.id ∧ q.orderID ≠ p.orderID := by
    intro q hq
    apply hqfacts q (by rw [hsplit]; exact List.mem_append_left _ hq)
    exact fun hc => hnotmem.1 (hc ▸ hq)
  obtain ⟨hA1, hA2⟩ := sweep_fold_frame gws pf pe ser env now L₁ p.id st [] p hids hrp hL₁
  have hpexp : expiredBefore p.expiryTime now = true := by
    unfold expiredBefore
    rw [hexp]
    simpa using hlt
  have hstep := sweepStep_expired gws pf pe ser env now
    (L₁.foldl (sweepAccum gws pf pe ser env now) (st, [])).1 p hptx hpexp hupd
  have hacc : sweepAccum gws pf pe ser env now
      (L₁.foldl (sweepAccum gws pf pe ser env now) (st, [])) p =
      ({ (L₁.foldl (sweepAccum gws pf pe ser env now) (st, [])).1 with
          payments := UpdatePaymentList
            (L₁.foldl (sweepAccum gws pf pe ser env now) (st, [])).1.payments
            { p with status := .Expired } },
       (L₁.foldl (sweepAccum gws pf pe ser env now) (st, [])).2 ++ [(p.id, false)]) := by
    show ((sweepStep gws pf pe ser env now
          (L₁.foldl (sweepAccum gws pf pe ser env now) (st, [])).1 p).1,
        (L₁.foldl (sweepAccum gws pf pe ser env now) (st, [])).2 ++
          [(p.id, (sweepStep gws pf pe ser env now
            (L₁.foldl (sweepAccum gws pf pe ser env now) (st, [])).1 p).2)]) = _
    rw [hstep]
  rw [hacc]
  have hrB : FindPaymentByID (UpdatePaymentList
      (L₁.foldl (sweepAccum gws pf pe ser env now) (st, [])).1.payments
      { p with status := .Expired }) p.id = some { p with status := .Expired } :=
    findPaymentByID_update _ p.id p _ hA1 rfl
  have hidsB : ((UpdatePaymentList
      (L₁.foldl (sweepAccum gws pf pe ser env now) (st, [])).1.payments
      { p with status := .Expired }).map Payment.id).Nodup := by
    rw [updatePaymentList_map_id, hA2]
    exact hids
  have hL₂ : ∀ q ∈ L₂, q.id ≠ p.id ∧ q.orderID ≠ ({ p with status := PaymentStatus.Expired }).orderID := by
    intro q hq
    apply hqfacts q (by rw [hsplit]; exact List.mem_append_right _ (by simp [hq]))
    exact fun hc => hnotmem.2 (hc ▸ hq)
  obtain ⟨hB1, hB2⟩ := sweep_fold_frame gws pf pe ser env now L₂ p.id
    ({ (L₁.foldl (sweepAccum gws pf pe ser env now) (st, [])).1 with
        payments := UpdatePaymentList
          (L₁.foldl (sweepAccum gws pf pe ser env now) (st, [])).1.payments
          { p with status := .Expired } })
    ((L₁.foldl (sweepAccum gws pf pe ser env now) (st, [])).2 ++ [(p.id, false)])
    { p with status := .Expired } hidsB hrB hL₂
  refine ⟨?_, hB1⟩
  apply sweep_fold_log_mono
  show (p.id, false) ∈ (L₁.foldl (sweepAccum gws pf pe ser env now) (st, [])).2 ++ [(p.id, false)]
  simp

/-- The pending payment fixture with an expiry deadline in the past
(relative to sweep time 100). -/
def expPaymentW : Payment := { pendingPaymentW with expiryTime := some 50 }

/-- Store holding the expired-pending payment. -/
def stExpW : Store := ⟨[expPaymentW], [orderW]⟩

/-- Witness for C7: the sweep at time 100 marks the payment expired with no
gateway call, even though the gateway oracle would fail the query. -/
theorem spec_C7_expiry_precedence_witness :
    (expPaymentW.id, false) ∈
      (checkAllPendingPayments (fun _ => .netError) pfW peW serW envW 100 stExpW).2 ∧
    FindPaymentByID
        (checkAllPendingPayments (fun _ => .netError) pfW peW serW envW 100 stExpW).1.payments
        expPaymentW.id =
      some { expPaymentW with status := .Expired } :=
  spec_C7_expiry_precedence (fun _ => .netError) pfW peW serW envW 100 stExpW expPaymentW 50
    (by decide) (by decide) (by decide) (by rfl) (by decide) (by rfl) (by rfl)
